import Mathlib

/-!
Verification of the record-linkage and derivation pipeline of `df_api_local`
(`app/etl.py`, function `run_transformations` and its helper `calc_egfr`).

Modelling conventions:
* A pandas float64 cell is modelled by `Flt`: either `NaN` (the missing
  value), a signed infinity, or an exact rational.  Arithmetic on `Flt`
  follows IEEE-754 semantics as numpy/pandas implement them (`NaN`
  propagates, division of a nonzero number by zero gives a signed
  infinity, `0/0` gives `NaN`).  Rationals stand in for binary floats;
  `round(x, 1)` is modelled as exact round-half-to-even at one decimal.
* The floating-point power `x ** y` appearing in the eGFR formula has an
  irrational result in general, so the whole pipeline is parameterised by
  an oracle `fpow : Flt → Flt → Flt`; every theorem quantifies over it.
* A DataFrame is a list of rows; each source has a structure whose field
  names are the semantic names the code assigns by `rename`.  Column
  dtypes are static: the columns the code recodes to labels are
  `Option String` (pandas `NA` = `none`), the remaining measurement
  columns are `Flt`.
* `id` normalisation `astype(str).str.strip()` is `pyStrip` (ids are
  modelled as the strings pandas would print); `Q` is a kernel-reducible
  exact-rational stand-in for the binary floats.
-/

/-- Kernel-reducible exact rational: the value is `n / (dp + 1)`.
Fractions are not kept normalised; value comparisons (`qLt`, `qLe`,
`qEqv`) cross-multiply, which is sound because denominators are positive
by construction. -/
structure Q where
  n : Int
  dp : Nat
deriving DecidableEq, Repr

/-- Build the rational `n / (dp + 1)`. -/
def qMk (n : Int) (dp : Nat) : Q := ⟨n, dp⟩

/-- The (positive) denominator of a `Q`. -/
def qDen (q : Q) : Int := (q.dp : Int) + 1

def qAdd (a b : Q) : Q := ⟨a.n * qDen b + b.n * qDen a, a.dp * b.dp + a.dp + b.dp⟩

def qMul (a b : Q) : Q := ⟨a.n * b.n, a.dp * b.dp + a.dp + b.dp⟩

def qNeg (a : Q) : Q := ⟨-a.n, a.dp⟩

def qSub (a b : Q) : Q := qAdd a (qNeg b)

/-- Exact division; only ever applied to a nonzero divisor. -/
def qDiv (a b : Q) : Q :=
  if 0 < b.n then ⟨a.n * qDen b, (a.dp + 1) * b.n.toNat - 1⟩
  else ⟨-(a.n * qDen b), (a.dp + 1) * (-b.n).toNat - 1⟩

def qLt (a b : Q) : Bool := a.n * qDen b < b.n * qDen a

def qLe (a b : Q) : Bool := a.n * qDen b ≤ b.n * qDen a

/-- Value equality of two fractions. -/
def qEqv (a b : Q) : Bool := a.n * qDen b == b.n * qDen a

def qFloor (a : Q) : Int := Int.fdiv a.n (qDen a)

/-- IEEE-style cell value of a numeric pandas column: missing (`NaN`),
signed infinity, or a finite value modelled as an exact rational. -/
inductive Flt where
  | NaN : Flt
  | pinf : Flt
  | ninf : Flt
  | num : Q → Flt
deriving DecidableEq, Repr

/-- Strict `<` on floats: any comparison with `NaN` is false. -/
def fltLt : Flt → Flt → Bool
  | Flt.num a, Flt.num b => qLt a b
  | Flt.num _, Flt.pinf => true
  | Flt.ninf, Flt.num _ => true
  | Flt.ninf, Flt.pinf => true
  | _, _ => false

/-- Non-strict `≤` on floats: any comparison with `NaN` is false. -/
def fltLe : Flt → Flt → Bool
  | Flt.num a, Flt.num b => qLe a b
  | Flt.num _, Flt.pinf => true
  | Flt.ninf, Flt.num _ => true
  | Flt.ninf, Flt.pinf => true
  | Flt.ninf, Flt.ninf => true
  | Flt.pinf, Flt.pinf => true
  | _, _ => false

/-- IEEE multiplication: `NaN` propagates, `inf * 0 = NaN`. -/
def fltMul : Flt → Flt → Flt
  | Flt.NaN, _ => Flt.NaN
  | _, Flt.NaN => Flt.NaN
  | Flt.num a, Flt.num b => Flt.num (qMul a b)
  | Flt.pinf, Flt.pinf => Flt.pinf
  | Flt.pinf, Flt.ninf => Flt.ninf
  | Flt.ninf, Flt.pinf => Flt.ninf
  | Flt.ninf, Flt.ninf => Flt.pinf
  | Flt.pinf, Flt.num b =>
      if 0 < b.n then Flt.pinf else if b.n < 0 then Flt.ninf else Flt.NaN
  | Flt.ninf, Flt.num b =>
      if 0 < b.n then Flt.ninf else if b.n < 0 then Flt.pinf else Flt.NaN
  | Flt.num a, Flt.pinf =>
      if 0 < a.n then Flt.pinf else if a.n < 0 then Flt.ninf else Flt.NaN
  | Flt.num a, Flt.ninf =>
      if 0 < a.n then Flt.ninf else if a.n < 0 then Flt.pinf else Flt.NaN

/-- IEEE division as numpy performs it inside a pandas column: a nonzero
finite numerator over zero gives a signed infinity, `0/0` gives `NaN`. -/
def fltDiv : Flt → Flt → Flt
  | Flt.NaN, _ => Flt.NaN
  | _, Flt.NaN => Flt.NaN
  | Flt.num a, Flt.num b =>
      if b.n = 0 then
        (if 0 < a.n then Flt.pinf else if a.n < 0 then Flt.ninf else Flt.NaN)
      else Flt.num (qDiv a b)
  | Flt.num _, Flt.pinf => Flt.num (qMk 0 0)
  | Flt.num _, Flt.ninf => Flt.num (qMk 0 0)
  | Flt.pinf, Flt.num b => if b.n < 0 then Flt.ninf else Flt.pinf
  | Flt.ninf, Flt.num b => if b.n < 0 then Flt.pinf else Flt.ninf
  | Flt.pinf, Flt.pinf => Flt.NaN
  | Flt.pinf, Flt.ninf => Flt.NaN
  | Flt.ninf, Flt.pinf => Flt.NaN
  | Flt.ninf, Flt.ninf => Flt.NaN

/-- Round a rational to the nearest integer, ties to even (the rounding
numpy's `round` uses). -/
def roundHalfEven (q : Q) : Int :=
  let f : Int := qFloor q
  let r : Q := qSub q (qMk f 0)
  if qLt r (qMk 1 1) then f
  else if qLt (qMk 1 1) r then f + 1
  else if f % 2 = 0 then f else f + 1

/-- Rounding `round(q, 1)`: one decimal, half to even. -/
def round1q (q : Q) : Q := qMk (roundHalfEven (qMul q (qMk 10 0))) 9

/-- Column rounding `.round(1)` on a float cell: `NaN` and infinities are unchanged. -/
def fltRound1 : Flt → Flt
  | Flt.NaN => Flt.NaN
  | Flt.pinf => Flt.pinf
  | Flt.ninf => Flt.ninf
  | Flt.num q => Flt.num (round1q q)

/-- Python's binary `min(a, b)`: returns `a` unless `b < a` (so a `NaN`
first argument is returned unchanged). -/
def pyMin (a b : Flt) : Flt := if fltLt b a then b else a

/-- Python's binary `max(a, b)`: returns `a` unless `a < b`. -/
def pyMax (a b : Flt) : Flt := if fltLt a b then b else a

/-- Mean of two non-`NaN` floats, used by the median of an even-length
column (numpy averages the two middle elements). -/
def fltAvg : Flt → Flt → Flt
  | Flt.num a, Flt.num b => Flt.num (qMul (qAdd a b) (qMk 1 1))
  | Flt.pinf, Flt.pinf => Flt.pinf
  | Flt.ninf, Flt.ninf => Flt.ninf
  | Flt.pinf, Flt.ninf => Flt.NaN
  | Flt.ninf, Flt.pinf => Flt.NaN
  | Flt.pinf, Flt.num _ => Flt.pinf
  | Flt.num _, Flt.pinf => Flt.pinf
  | Flt.ninf, Flt.num _ => Flt.ninf
  | Flt.num _, Flt.ninf => Flt.ninf
  | _, _ => Flt.NaN

/-- Insert into a `fltLe`-sorted list. -/
def fltInsort (x : Flt) : List Flt → List Flt
  | [] => [x]
  | y :: ys => if fltLe x y then x :: y :: ys else y :: fltInsort x ys

/-- Insertion sort on float cells. -/
def fltSort (l : List Flt) : List Flt := l.foldr fltInsort []

/-- pandas `Series.median()` (default `skipna=True`): drop `NaN`s, sort,
take the middle element, or the mean of the two middle ones; the median
of an empty or all-`NaN` column is `NaN`. -/
def fltMedian (l : List Flt) : Flt :=
  let v := fltSort (l.filter (fun x => x != Flt.NaN))
  let n := v.length
  if n = 0 then Flt.NaN
  else if n % 2 = 1 then v.getD (n / 2) Flt.NaN
  else fltAvg (v.getD (n / 2 - 1) Flt.NaN) (v.getD (n / 2) Flt.NaN)

/-- Numeric `fillna` with fill value `m`: only missing cells
are replaced (a missing fill value leaves them missing). -/
def fillN (m x : Flt) : Flt := if x = Flt.NaN then m else x

/-- Drop leading whitespace characters. -/
def dropLeadingWS : List Char → List Char
  | [] => []
  | c :: cs => if c.isWhitespace then dropLeadingWS cs else c :: cs

/-- Python's `str.strip()`: remove leading and trailing whitespace
(kernel-reducible replacement for `String.trim`). -/
def pyStrip (s : String) : String :=
  ⟨(dropLeadingWS ((dropLeadingWS s.data).reverse)).reverse⟩

/-- The check `str.startswith("I-")` for the fixed exclusion literal of line 170. -/
def idStartsWithIM (s : String) : Bool :=
  match s.data with
  | 'I' :: '-' :: _ => true
  | _ => false

/-- Demographic source row after the `rename` of etl.py (columns
`C_DEMOGRAPHIC`); all measurement/code cells read as float64. -/
structure DemoRow where
  id : String
  grupo_etnico : Flt
  nivel_educativo : Flt
  estado_civil : Flt
  pais_nacimiento : Flt
  peso_muestral_examen : Flt
  peso_muestral_entrevista : Flt
  unidad_muestral_psu : Flt
  estrato_muestral : Flt
deriving DecidableEq, Repr

/-- Response source row after `rename` (columns `C_RESPONSE`). -/
structure RespRow where
  id : String
  creatinina_serica : Flt
  albumina_urinaria : Flt
  creatinina_urinaria : Flt
  peso_kg : Flt
  altura_cm : Flt
  IMC : Flt
  TAS1 : Flt
  TAS2 : Flt
  TAS3 : Flt
  TAS4 : Flt
  TAD1 : Flt
  TAD2 : Flt
  TAD3 : Flt
  TAD4 : Flt
deriving DecidableEq, Repr

/-- Questionnaire source row after `rename` (columns `C_QUEST`). -/
structure QuestRow where
  id : String
  DM : Flt
  HTA : Flt
  IC : Flt
  EC : Flt
  ACV : Flt
  CA : Flt
  consumo_alcohol : Flt
  actividad_fisica_moderada : Flt
  actividad_fisica_vigorosa : Flt
deriving DecidableEq, Repr

/-- Mortality source row after `rename` (columns `C_MORT`). -/
structure MortRow where
  id : String
  mortalidad : Flt
  causa_muerte : Flt
deriving DecidableEq, Repr

/-- Dietary source row after `rename` (columns `C_DIET`). -/
structure DietRow where
  id : String
  edad_anos : Flt
  sexo : Flt
deriving DecidableEq, Repr

/-- pandas `Series.replace(dict)`: a finite cell equal to a key of the
dict is substituted (simultaneously), every other cell is unchanged. -/
def replaceTable (m : List (Nat × Nat)) : Flt → Flt
  | Flt.num a => match (m.find? (fun p => qEqv a (qMk p.1 0))).map (fun p => p.2) with
      | some b => Flt.num (qMk b 0)
      | none => Flt.num a
  | x => x

/-- pandas `Series.map(dict)`: a finite cell equal to a key becomes the
mapped label, everything else (unknown codes, `NaN`, infinities) becomes
missing. -/
def mapTable (m : List (Nat × String)) : Flt → Option String
  | Flt.num a => (m.find? (fun p => qEqv a (qMk p.1 0))).map (fun p => p.2)
  | _ => none

def reco_grupo_etnico : List (Nat × String) :=
  [(1, "Mexicano-Americano"), (2, "Otros hispanos"), (3, "Blanco no hispano"),
   (4, "Negro no hispano"), (5, "Otra raza, incluida la multirracial")]

def reco_nivel_educativo : List (Nat × String) :=
  [(1, "Menos de 9° grado"), (2, "9-11º (incluye 12º sin diploma)"),
   (3, "Graduado secundaria / GED"), (4, "Algún título universitario o AA"),
   (5, "Graduado universitario o superior"), (7, "Negado"), (9, "No sé")]

def reco_estado_civil : List (Nat × String) :=
  [(1, "Casado/Viviendo con pareja"), (2, "Viudo/Divorciado/Separado"),
   (3, "Nunca casado"), (77, "Negado"), (99, "No sé")]

def reco_pais_nacimiento : List (Nat × String) :=
  [(1, "EE. UU./Washington"), (2, "México"), (3, "Otro país"),
   (7, "Negado"), (9, "No sé")]

def reco_DM : List (Nat × String) :=
  [(1, "Sí"), (2, "No"), (3, "Frontera"), (7, "Negado"), (9, "No sé")]

def reco_HTA : List (Nat × String) := [(1, "Sí"), (2, "No"), (9, "No sé")]

def reco_IC : List (Nat × String) :=
  [(1, "Sí"), (2, "No"), (7, "Negado"), (9, "No sé")]

def reco_EC : List (Nat × String) := reco_IC
def reco_ACV : List (Nat × String) := reco_IC
def reco_CA : List (Nat × String) := reco_IC

def reco_consumo_alcohol : List (Nat × String) := [(1, "Sí"), (2, "No"), (9, "No sé")]

def reco_actividad : List (Nat × String) :=
  [(1, "Sí"), (2, "No"), (7, "Negado"), (9, "No sé")]

def reco_mortalidad : List (Nat × String) := [(0, "Vivo"), (1, "Muerto")]

def reco_causa_muerte : List (Nat × String) :=
  [(1, "Enf. corazón"), (2, "Neoplasmas"), (3, "Enf. resp. crónicas"),
   (4, "Accidentes"), (5, "Enf. cerebrovasculares"), (6, "Alzheimer"),
   (7, "Diabetes"), (8, "Influenza/neumonía"),
   (9, "Nefritis/síndrome nefrótico/nefrosis"), (10, "Otras causas")]

def reco_sexo : List (Nat × String) := [(1, "Hombre"), (2, "Mujer")]

/-- First pass of the marital-status recode:
`replace({6:1, 5:12, 3:2, 4:2})`. -/
def estadoCivilPass1 : Flt → Flt := replaceTable [(6, 1), (5, 12), (3, 2), (4, 2)]

/-- Second pass of the marital-status recode: `replace({12:3})`. -/
def estadoCivilPass2 : Flt → Flt := replaceTable [(12, 3)]

/-- The two sequential substitutions the code applies to `estado_civil`. -/
def estadoCivilTwoPass (x : Flt) : Flt := estadoCivilPass2 (estadoCivilPass1 x)

/-- Demographic row after recodes: the four categorical columns carry
labels, the two sampling weights are rounded to 1 decimal. -/
structure DemoRowR where
  id : String
  grupo_etnico : Option String
  nivel_educativo : Option String
  estado_civil : Option String
  pais_nacimiento : Option String
  peso_muestral_examen : Flt
  peso_muestral_entrevista : Flt
  unidad_muestral_psu : Flt
  estrato_muestral : Flt
deriving DecidableEq, Repr

/-- Questionnaire row after recodes. -/
structure QuestRowR where
  id : String
  DM : Option String
  HTA : Option String
  IC : Option String
  EC : Option String
  ACV : Option String
  CA : Option String
  consumo_alcohol : Option String
  actividad_fisica_moderada : Option String
  actividad_fisica_vigorosa : Option String
deriving DecidableEq, Repr

/-- Mortality row after recodes. -/
structure MortRowR where
  id : String
  mortalidad : Option String
  causa_muerte : Option String
deriving DecidableEq, Repr

/-- Dietary row after recodes. -/
structure DietRowR where
  id : String
  edad_anos : Flt
  sexo : Option String
deriving DecidableEq, Repr

/-- Recode one demographic row (etl.py lines 85-87 and 112). -/
def recodeDemo (r : DemoRow) : DemoRowR :=
  { id := r.id
    grupo_etnico := mapTable reco_grupo_etnico r.grupo_etnico
    nivel_educativo := mapTable reco_nivel_educativo r.nivel_educativo
    estado_civil := mapTable reco_estado_civil (estadoCivilTwoPass r.estado_civil)
    pais_nacimiento := mapTable reco_pais_nacimiento r.pais_nacimiento
    peso_muestral_examen := fltRound1 r.peso_muestral_examen
    peso_muestral_entrevista := fltRound1 r.peso_muestral_entrevista
    unidad_muestral_psu := r.unidad_muestral_psu
    estrato_muestral := r.estrato_muestral }

/-- Recode one questionnaire row (etl.py line 113). -/
def recodeQuest (r : QuestRow) : QuestRowR :=
  { id := r.id
    DM := mapTable reco_DM r.DM
    HTA := mapTable reco_HTA r.HTA
    IC := mapTable reco_IC r.IC
    EC := mapTable reco_EC r.EC
    ACV := mapTable reco_ACV r.ACV
    CA := mapTable reco_CA r.CA
    consumo_alcohol := mapTable reco_consumo_alcohol r.consumo_alcohol
    actividad_fisica_moderada := mapTable reco_actividad r.actividad_fisica_moderada
    actividad_fisica_vigorosa := mapTable reco_actividad r.actividad_fisica_vigorosa }

/-- Recode one mortality row (etl.py line 114). -/
def recodeMort (r : MortRow) : MortRowR :=
  { id := r.id
    mortalidad := mapTable reco_mortalidad r.mortalidad
    causa_muerte := mapTable reco_causa_muerte r.causa_muerte }

/-- Recode one dietary row (etl.py line 115). -/
def recodeDiet (r : DietRow) : DietRowR :=
  { id := r.id
    edad_anos := r.edad_anos
    sexo := mapTable reco_sexo r.sexo }

/-- Boolean membership in a list of strings. -/
def memB (s : String) : List String → Bool
  | [] => false
  | x :: xs => (s == x) || memB s xs

/-- Boolean no-duplicate check on a key column. -/
def nodupB : List String → Bool
  | [] => true
  | x :: xs => (!(memB x xs)) && nodupB xs

/-- One validated left merge, `merge(on="id", how="left",
validate="one_to_one")`: pandas raises `MergeError` when either side's
key column has a duplicate; otherwise every left row is paired with its
unique right match (or `none`). -/
def mergeOneToOne {L R : Type} (step : String) (lid : L → String)
    (rid : R → String) (left : List L) (right : List R) :
    Except String (List (L × Option R)) :=
  if nodupB (left.map lid) && nodupB (right.map rid) then
    Except.ok (left.map (fun l => (l, right.find? (fun r => rid r == lid l))))
  else
    Except.error ("MergeError: merge keys are not unique in " ++ step ++ " merge")

/-- pandas `drop_duplicates(subset="id", keep="first")` on the dietary source,
written with an accumulator of already-seen ids. -/
def dedupFirstAux (seen : List String) : List DietRowR → List DietRowR
  | [] => []
  | r :: rs =>
      if memB r.id seen then dedupFirstAux seen rs
      else r :: dedupFirstAux (r.id :: seen) rs

/-- pandas `drop_duplicates(subset="id", keep="first")`. -/
def dedupFirst (l : List DietRowR) : List DietRowR := dedupFirstAux [] l

/-- The five input DataFrames handed to `run_transformations`. -/
structure Inputs where
  demographic : List DemoRow
  dietary : List DietRow
  response : List RespRow
  questionnaire : List QuestRow
  mortality : List MortRow

/-- Recode + id normalisation of the demographic source. -/
def prepDemo (l : List DemoRow) : List DemoRowR :=
  l.map (fun r => { recodeDemo r with id := pyStrip r.id })

/-- Id normalisation of the response source (it has no recodes). -/
def prepResp (l : List RespRow) : List RespRow :=
  l.map (fun r => { r with id := pyStrip r.id })

/-- Recode + id normalisation of the questionnaire source. -/
def prepQuest (l : List QuestRow) : List QuestRowR :=
  l.map (fun r => { recodeQuest r with id := pyStrip r.id })

/-- Recode + id normalisation of the mortality source. -/
def prepMort (l : List MortRow) : List MortRowR :=
  l.map (fun r => { recodeMort r with id := pyStrip r.id })

/-- Recode + id normalisation of the dietary source (deduplication is
applied on top of this by the pipeline). -/
def prepDiet (l : List DietRow) : List DietRowR :=
  l.map (fun r => { recodeDiet r with id := pyStrip r.id })

/-- One row of the merged table: all five sources' semantic columns plus
the four derived columns. -/
structure MergedRow where
  id : String
  grupo_etnico : Option String
  nivel_educativo : Option String
  estado_civil : Option String
  pais_nacimiento : Option String
  peso_muestral_examen : Flt
  peso_muestral_entrevista : Flt
  unidad_muestral_psu : Flt
  estrato_muestral : Flt
  creatinina_serica : Flt
  albumina_urinaria : Flt
  creatinina_urinaria : Flt
  peso_kg : Flt
  altura_cm : Flt
  IMC : Flt
  TAS1 : Flt
  TAS2 : Flt
  TAS3 : Flt
  TAS4 : Flt
  TAD1 : Flt
  TAD2 : Flt
  TAD3 : Flt
  TAD4 : Flt
  DM : Option String
  HTA : Option String
  IC : Option String
  EC : Option String
  ACV : Option String
  CA : Option String
  consumo_alcohol : Option String
  actividad_fisica_moderada : Option String
  actividad_fisica_vigorosa : Option String
  mortalidad : Option String
  causa_muerte : Option String
  edad_anos : Flt
  sexo : Option String
  ACR : Flt
  categoria_ACR : Option String
  eGFR : Flt
  categoria_eGFR : Option String
deriving DecidableEq, Repr

/-- Assemble a merged row from the anchor demographic row and the four
optional right-side matches; an absent match contributes missing cells
(the derived columns are placeholders overwritten by `deriveRow`). -/
def buildMergedRow
    (x : (((DemoRowR × Option RespRow) × Option QuestRowR) × Option MortRowR) × Option DietRowR) :
    MergedRow :=
  let d := x.1.1.1.1
  let oR := x.1.1.1.2
  let oQ := x.1.1.2
  let oM := x.1.2
  let oD := x.2
  { id := d.id
    grupo_etnico := d.grupo_etnico
    nivel_educativo := d.nivel_educativo
    estado_civil := d.estado_civil
    pais_nacimiento := d.pais_nacimiento
    peso_muestral_examen := d.peso_muestral_examen
    peso_muestral_entrevista := d.peso_muestral_entrevista
    unidad_muestral_psu := d.unidad_muestral_psu
    estrato_muestral := d.estrato_muestral
    creatinina_serica := (oR.map (fun r => r.creatinina_serica)).getD Flt.NaN
    albumina_urinaria := (oR.map (fun r => r.albumina_urinaria)).getD Flt.NaN
    creatinina_urinaria := (oR.map (fun r => r.creatinina_urinaria)).getD Flt.NaN
    peso_kg := (oR.map (fun r => r.peso_kg)).getD Flt.NaN
    altura_cm := (oR.map (fun r => r.altura_cm)).getD Flt.NaN
    IMC := (oR.map (fun r => r.IMC)).getD Flt.NaN
    TAS1 := (oR.map (fun r => r.TAS1)).getD Flt.NaN
    TAS2 := (oR.map (fun r => r.TAS2)).getD Flt.NaN
    TAS3 := (oR.map (fun r => r.TAS3)).getD Flt.NaN
    TAS4 := (oR.map (fun r => r.TAS4)).getD Flt.NaN
    TAD1 := (oR.map (fun r => r.TAD1)).getD Flt.NaN
    TAD2 := (oR.map (fun r => r.TAD2)).getD Flt.NaN
    TAD3 := (oR.map (fun r => r.TAD3)).getD Flt.NaN
    TAD4 := (oR.map (fun r => r.TAD4)).getD Flt.NaN
    DM := oQ.bind (fun q => q.DM)
    HTA := oQ.bind (fun q => q.HTA)
    IC := oQ.bind (fun q => q.IC)
    EC := oQ.bind (fun q => q.EC)
    ACV := oQ.bind (fun q => q.ACV)
    CA := oQ.bind (fun q => q.CA)
    consumo_alcohol := oQ.bind (fun q => q.consumo_alcohol)
    actividad_fisica_moderada := oQ.bind (fun q => q.actividad_fisica_moderada)
    actividad_fisica_vigorosa := oQ.bind (fun q => q.actividad_fisica_vigorosa)
    mortalidad := oM.bind (fun m => m.mortalidad)
    causa_muerte := oM.bind (fun m => m.causa_muerte)
    edad_anos := (oD.map (fun r => r.edad_anos)).getD Flt.NaN
    sexo := oD.bind (fun r => r.sexo)
    ACR := Flt.NaN
    categoria_ACR := none
    eGFR := Flt.NaN
    categoria_eGFR := none }

/-- The Key Linker: recode, id normalisation, dietary deduplication, and
the four successive validated left joins of etl.py lines 112-129. -/
def mergeStage (dfs : Inputs) : Except String (List MergedRow) := do
  let m1 ← mergeOneToOne "response" (fun r => r.id) (fun r => r.id)
    (prepDemo dfs.demographic) (prepResp dfs.response)
  let m2 ← mergeOneToOne "questionnaire" (fun p => p.1.id) (fun r => r.id)
    m1 (prepQuest dfs.questionnaire)
  let m3 ← mergeOneToOne "mortality" (fun p => p.1.1.id) (fun r => r.id)
    m2 (prepMort dfs.mortality)
  let m4 ← mergeOneToOne "dietary" (fun p => p.1.1.1.id) (fun r => r.id)
    m3 (dedupFirst (prepDiet dfs.dietary))
  Except.ok (m4.map buildMergedRow)

/-- Line 132: `creatinina_urinaria(g/L)` is rescaled by `* 0.01` and
rounded to one decimal. -/
def rescaleCreatUrin (c : Flt) : Flt := fltRound1 (fltMul c (Flt.num (qMk 1 99)))

/-- Line 133: the ACR score, albumin over the already-rescaled urinary
creatinine, rounded to one decimal. -/
def acrOf (alb c : Flt) : Flt := fltRound1 (fltDiv alb (rescaleCreatUrin c))

/-- Lines 135-138: the three-tier ACR category, written as the chain of
`.loc` assignments over an initially missing string column. -/
def categoria_ACR_of (acr : Flt) : Option String :=
  let s : Option String := none
  let s := if fltLt acr (Flt.num (qMk 30 0)) then some "A1" else s
  let s := if fltLe (Flt.num (qMk 30 0)) acr && fltLe acr (Flt.num (qMk 300 0)) then some "A2" else s
  let s := if fltLt (Flt.num (qMk 300 0)) acr then some "A3" else s
  s

/-- Lines 140-145: `calc_egfr`, the sex-specific CKD-EPI-style formula;
`fpow` is the floating-point power oracle. -/
def calc_egfr (fpow : Flt → Flt → Flt) (creat age : Flt) (gender : Option String) : Flt :=
  if gender == some "Mujer" then
    let rate := fltDiv creat (Flt.num (qMk 7 9))
    fltMul (fltMul (fltMul (fltMul (Flt.num (qMk 142 0))
      (fpow (pyMin rate (Flt.num (qMk 1 0))) (Flt.num (qMk (-241) 999))))
      (fpow (pyMax rate (Flt.num (qMk 1 0))) (Flt.num (qMk (-1200) 999))))
      (fpow (Flt.num (qMk 9938 9999)) age)) (Flt.num (qMk 1012 999))
  else if gender == some "Hombre" then
    let rate := fltDiv creat (Flt.num (qMk 9 9))
    fltMul (fltMul (fltMul (fltMul (Flt.num (qMk 142 0))
      (fpow (pyMin rate (Flt.num (qMk 1 0))) (Flt.num (qMk (-302) 999))))
      (fpow (pyMax rate (Flt.num (qMk 1 0))) (Flt.num (qMk (-1200) 999))))
      (fpow (Flt.num (qMk 9938 9999)) age)) (Flt.num (qMk 1 0))
  else Flt.NaN

/-- Lines 152-158: the six-tier eGFR category, written as the chain of
`.loc` assignments over an initially missing string column. -/
def categoria_eGFR_of (e : Flt) : Option String :=
  let s : Option String := none
  let s := if fltLe (Flt.num (qMk 90 0)) e then some "G1" else s
  let s := if fltLe (Flt.num (qMk 60 0)) e && fltLt e (Flt.num (qMk 90 0)) then some "G2" else s
  let s := if fltLe (Flt.num (qMk 45 0)) e && fltLt e (Flt.num (qMk 60 0)) then some "G3a" else s
  let s := if fltLe (Flt.num (qMk 30 0)) e && fltLt e (Flt.num (qMk 45 0)) then some "G3b" else s
  let s := if fltLe (Flt.num (qMk 15 0)) e && fltLt e (Flt.num (qMk 30 0)) then some "G4" else s
  let s := if fltLt e (Flt.num (qMk 15 0)) then some "G5" else s
  s

/-- The Derivation Engine applied to one merged row (lines 132-158). -/
def deriveRow (fpow : Flt → Flt → Flt) (r : MergedRow) : MergedRow :=
  let cu := rescaleCreatUrin r.creatinina_urinaria
  let acr := fltRound1 (fltDiv r.albumina_urinaria cu)
  let eg := fltRound1 (calc_egfr fpow r.creatinina_serica r.edad_anos r.sexo)
  { r with
    creatinina_urinaria := cu
    ACR := acr
    categoria_ACR := categoria_ACR_of acr
    eGFR := eg
    categoria_eGFR := categoria_eGFR_of eg }

/-- Merge, derive, then drop the `"I-"` sub-cohort (line 170); the
projection to `columns_merge` keeps all 40 columns and only reorders
them, so it is the identity on a structured row. -/
def preTable (fpow : Flt → Flt → Flt) (dfs : Inputs) : Except String (List MergedRow) :=
  (mergeStage dfs).map
    (fun m => (m.map (deriveRow fpow)).filter (fun r => !(idStartsWithIM r.id)))

/-- Line 178: a text cell is trimmed and an empty result is missing. -/
def cleanText (x : Option String) : Option String :=
  match x with
  | none => none
  | some s => if pyStrip s = "" then none else some (pyStrip s)

/-- Text fill: `strip` + `replace({"": NA})` + `fillna(sentinel)`. -/
def fillT (sentinel : String) (x : Option String) : Option String :=
  some ((cleanText x).getD sentinel)

/-- The id column goes through the same text fill; it carries no
field-specific sentinel, so an id that trims to the empty string is
rewritten to the generic `"Sin categoria"`. -/
def fillId (s : String) : String :=
  if pyStrip s = "" then "Sin categoria" else pyStrip s

/-- Lines 177-192: sentinel fill of every text column. -/
def fillTextRow (r : MergedRow) : MergedRow :=
  { r with
    id := fillId r.id
    grupo_etnico := fillT "Sin etnia" r.grupo_etnico
    nivel_educativo := fillT "Sin categoria" r.nivel_educativo
    estado_civil := fillT "No definido" r.estado_civil
    pais_nacimiento := fillT "No definido" r.pais_nacimiento
    DM := fillT "Sin diagnostico" r.DM
    HTA := fillT "Sin diagnostico" r.HTA
    IC := fillT "Sin diagnostico" r.IC
    EC := fillT "Sin diagnostico" r.EC
    ACV := fillT "Sin diagnostico" r.ACV
    CA := fillT "Sin diagnostico" r.CA
    consumo_alcohol := fillT "Sin categoria" r.consumo_alcohol
    actividad_fisica_moderada := fillT "Sin categoria" r.actividad_fisica_moderada
    actividad_fisica_vigorosa := fillT "Sin categoria" r.actividad_fisica_vigorosa
    mortalidad := fillT "No definido" r.mortalidad
    causa_muerte := fillT "Sin causa" r.causa_muerte
    sexo := fillT "No definido" r.sexo
    categoria_ACR := fillT "A1(por media)" r.categoria_ACR
    categoria_eGFR := fillT "G1(por media)" r.categoria_eGFR }

/-- The per-column medians of line 194 (`median().round(1)`). -/
structure Medians where
  peso_muestral_examen : Flt
  peso_muestral_entrevista : Flt
  unidad_muestral_psu : Flt
  estrato_muestral : Flt
  creatinina_serica : Flt
  albumina_urinaria : Flt
  creatinina_urinaria : Flt
  peso_kg : Flt
  altura_cm : Flt
  IMC : Flt
  TAS1 : Flt
  TAS2 : Flt
  TAS3 : Flt
  TAS4 : Flt
  TAD1 : Flt
  TAD2 : Flt
  TAD3 : Flt
  TAD4 : Flt
  edad_anos : Flt
  ACR : Flt
  eGFR : Flt
deriving DecidableEq, Repr

/-- Compute every numeric column's rounded median over the current
table (line 194). -/
def mediansOf (rows : List MergedRow) : Medians :=
  { peso_muestral_examen := fltRound1 (fltMedian (rows.map (fun r => r.peso_muestral_examen)))
    peso_muestral_entrevista := fltRound1 (fltMedian (rows.map (fun r => r.peso_muestral_entrevista)))
    unidad_muestral_psu := fltRound1 (fltMedian (rows.map (fun r => r.unidad_muestral_psu)))
    estrato_muestral := fltRound1 (fltMedian (rows.map (fun r => r.estrato_muestral)))
    creatinina_serica := fltRound1 (fltMedian (rows.map (fun r => r.creatinina_serica)))
    albumina_urinaria := fltRound1 (fltMedian (rows.map (fun r => r.albumina_urinaria)))
    creatinina_urinaria := fltRound1 (fltMedian (rows.map (fun r => r.creatinina_urinaria)))
    peso_kg := fltRound1 (fltMedian (rows.map (fun r => r.peso_kg)))
    altura_cm := fltRound1 (fltMedian (rows.map (fun r => r.altura_cm)))
    IMC := fltRound1 (fltMedian (rows.map (fun r => r.IMC)))
    TAS1 := fltRound1 (fltMedian (rows.map (fun r => r.TAS1)))
    TAS2 := fltRound1 (fltMedian (rows.map (fun r => r.TAS2)))
    TAS3 := fltRound1 (fltMedian (rows.map (fun r => r.TAS3)))
    TAS4 := fltRound1 (fltMedian (rows.map (fun r => r.TAS4)))
    TAD1 := fltRound1 (fltMedian (rows.map (fun r => r.TAD1)))
    TAD2 := fltRound1 (fltMedian (rows.map (fun r => r.TAD2)))
    TAD3 := fltRound1 (fltMedian (rows.map (fun r => r.TAD3)))
    TAD4 := fltRound1 (fltMedian (rows.map (fun r => r.TAD4)))
    edad_anos := fltRound1 (fltMedian (rows.map (fun r => r.edad_anos)))
    ACR := fltRound1 (fltMedian (rows.map (fun r => r.ACR)))
    eGFR := fltRound1 (fltMedian (rows.map (fun r => r.eGFR))) }

/-- Lines 195-196: fill every numeric column's missing cells with that
column's precomputed median. -/
def fillNumRow (m : Medians) (r : MergedRow) : MergedRow :=
  { r with
    peso_muestral_examen := fillN m.peso_muestral_examen r.peso_muestral_examen
    peso_muestral_entrevista := fillN m.peso_muestral_entrevista r.peso_muestral_entrevista
    unidad_muestral_psu := fillN m.unidad_muestral_psu r.unidad_muestral_psu
    estrato_muestral := fillN m.estrato_muestral r.estrato_muestral
    creatinina_serica := fillN m.creatinina_serica r.creatinina_serica
    albumina_urinaria := fillN m.albumina_urinaria r.albumina_urinaria
    creatinina_urinaria := fillN m.creatinina_urinaria r.creatinina_urinaria
    peso_kg := fillN m.peso_kg r.peso_kg
    altura_cm := fillN m.altura_cm r.altura_cm
    IMC := fillN m.IMC r.IMC
    TAS1 := fillN m.TAS1 r.TAS1
    TAS2 := fillN m.TAS2 r.TAS2
    TAS3 := fillN m.TAS3 r.TAS3
    TAS4 := fillN m.TAS4 r.TAS4
    TAD1 := fillN m.TAD1 r.TAD1
    TAD2 := fillN m.TAD2 r.TAD2
    TAD3 := fillN m.TAD3 r.TAD3
    TAD4 := fillN m.TAD4 r.TAD4
    edad_anos := fillN m.edad_anos r.edad_anos
    ACR := fillN m.ACR r.ACR
    eGFR := fillN m.eGFR r.eGFR }

/-- The Reconciler's fill pass (lines 174-196): sentinel-fill the text
columns, then median-fill the numeric columns, the medians being
computed once over the post-exclusion, post-projection table. -/
def fillStage (rows : List MergedRow) : List MergedRow :=
  let rt := rows.map fillTextRow
  let ms := mediansOf rt
  rt.map (fillNumRow ms)

/-- The whole of `run_transformations` (etl.py lines 57-198). -/
def run_transformations (fpow : Flt → Flt → Flt) (dfs : Inputs) :
    Except String (List MergedRow) :=
  (preTable fpow dfs).map fillStage

/-- The spec's filtration-score formula, stated verbatim from section
4.4 for the refinement claim: `rate = creat / kappa`, result
`142 * min(rate,1)^alpha * max(rate,1)^(-1.200) * 0.9938^age * sex-factor`,
with the same power oracle as the code. -/
def egfr_spec_formula (fpow : Flt → Flt → Flt) (creat age : Flt)
    (kappa alpha factor : Q) : Flt :=
  let rate := fltDiv creat (Flt.num kappa)
  fltMul (fltMul (fltMul (fltMul (Flt.num (qMk 142 0))
    (fpow (pyMin rate (Flt.num (qMk 1 0))) (Flt.num alpha)))
    (fpow (pyMax rate (Flt.num (qMk 1 0))) (Flt.num (qMk (-1200) 999))))
    (fpow (Flt.num (qMk 9938 9999)) age)) (Flt.num factor)

/-- Explicit value of the first join (demographic left-joined with
response). -/
def jr1 (dfs : Inputs) : List (DemoRowR × Option RespRow) :=
  (prepDemo dfs.demographic).map
    (fun l => (l, (prepResp dfs.response).find? (fun r => r.id == l.id)))

/-- Explicit value of the second join (plus questionnaire). -/
def jr2 (dfs : Inputs) : List ((DemoRowR × Option RespRow) × Option QuestRowR) :=
  (jr1 dfs).map
    (fun l => (l, (prepQuest dfs.questionnaire).find? (fun r => r.id == l.1.id)))

/-- Explicit value of the third join (plus mortality). -/
def jr3 (dfs : Inputs) :
    List (((DemoRowR × Option RespRow) × Option QuestRowR) × Option MortRowR) :=
  (jr2 dfs).map
    (fun l => (l, (prepMort dfs.mortality).find? (fun r => r.id == l.1.1.id)))

/-- Explicit value of the fourth join (plus deduplicated dietary). -/
def jr4 (dfs : Inputs) :
    List ((((DemoRowR × Option RespRow) × Option QuestRowR) × Option MortRowR) × Option DietRowR) :=
  (jr3 dfs).map
    (fun l => (l, (dedupFirst (prepDiet dfs.dietary)).find? (fun r => r.id == l.1.1.1.id)))

/-- Explicit value of the whole merge stage when every join validates. -/
def mergeStageVal (dfs : Inputs) : List MergedRow := (jr4 dfs).map buildMergedRow

/-- Power oracle returning `NaN` everywhere (any fixed oracle works for
claims that do not involve the eGFR value). -/
def fpowNaN : Flt → Flt → Flt := fun _ _ => Flt.NaN

/-- Power oracle returning `1` everywhere. -/
def fpowOne : Flt → Flt → Flt := fun _ _ => Flt.num (qMk 1 0)

/-- A demographic row with the given id and no measurements. -/
def demoRowNaN (s : String) : DemoRow :=
  ⟨s, Flt.NaN, Flt.NaN, Flt.NaN, Flt.NaN, Flt.NaN, Flt.NaN, Flt.NaN, Flt.NaN⟩

def w2 : Inputs :=
  ⟨[demoRowNaN "1"], [],
   [⟨"2", Flt.NaN, Flt.NaN, Flt.NaN, Flt.NaN, Flt.NaN, Flt.NaN, Flt.NaN, Flt.NaN,
     Flt.NaN, Flt.NaN, Flt.NaN, Flt.NaN, Flt.NaN, Flt.NaN⟩,
    ⟨"2 ", Flt.NaN, Flt.NaN, Flt.NaN, Flt.NaN, Flt.NaN, Flt.NaN, Flt.NaN, Flt.NaN,
     Flt.NaN, Flt.NaN, Flt.NaN, Flt.NaN, Flt.NaN, Flt.NaN⟩],
   [], []⟩


def w1 : Inputs := ⟨[demoRowNaN "7", demoRowNaN "I-3"], [], [], [], []⟩

def w1out : List MergedRow := ((run_transformations fpowNaN w1).toOption).getD []

def cexC1 : Inputs := ⟨[demoRowNaN " "], [], [], [], []⟩

/-- A merged row with empty id and all cells missing (an anchor row with
no matches), used to build concrete rows. -/
def mrowDefault : MergedRow :=
  buildMergedRow ⟨⟨⟨⟨⟨"", none, none, none, none, Flt.NaN, Flt.NaN, Flt.NaN, Flt.NaN⟩,
    none⟩, none⟩, none⟩, none⟩

def c6row : MergedRow :=
  { mrowDefault with
    sexo := some "Mujer"
    creatinina_serica := Flt.num (qMk 6 9)
    edad_anos := Flt.num (qMk 50 0) }

def c4row : MergedRow :=
  { mrowDefault with
    albumina_urinaria := Flt.num (qMk 5 0)
    creatinina_urinaria := Flt.num (qMk 0 0) }

def w8 : Inputs :=
  ⟨[demoRowNaN "5"],
   [⟨"5", Flt.num (qMk 31 0), Flt.num (qMk 1 0)⟩,
    ⟨"5", Flt.num (qMk 40 0), Flt.num (qMk 2 0)⟩],
   [], [], []⟩

def w10 : Inputs := ⟨[demoRowNaN "1"], [], [], [], []⟩

def w10out : List MergedRow := ((run_transformations fpowNaN w10).toOption).getD []

def w10pre : List MergedRow := ((preTable fpowNaN w10).toOption).getD []

/-- A text cell that is present and non-empty. -/
def textFilled (x : Option String) : Bool :=
  match x with
  | some s => s != ""
  | none => false

/-- Every text column of a row is present and non-empty. -/
def rowTextFilled (r : MergedRow) : Bool :=
  (r.id != "") &&
  (textFilled r.grupo_etnico &&
  (textFilled r.nivel_educativo &&
  (textFilled r.estado_civil &&
  (textFilled r.pais_nacimiento &&
  (textFilled r.DM &&
  (textFilled r.HTA &&
  (textFilled r.IC &&
  (textFilled r.EC &&
  (textFilled r.ACV &&
  (textFilled r.CA &&
  (textFilled r.consumo_alcohol &&
  (textFilled r.actividad_fisica_moderada &&
  (textFilled r.actividad_fisica_vigorosa &&
  (textFilled r.mortalidad &&
  (textFilled r.causa_muerte &&
  (textFilled r.sexo &&
  (textFilled r.categoria_ACR &&
  textFilled r.categoria_eGFR)))))))))))))))))

/-- Every numeric column of a row is non-missing. -/
def rowNumFilled (r : MergedRow) : Bool :=
  (r.peso_muestral_examen != Flt.NaN) &&
  ((r.peso_muestral_entrevista != Flt.NaN) &&
  ((r.unidad_muestral_psu != Flt.NaN) &&
  ((r.estrato_muestral != Flt.NaN) &&
  ((r.creatinina_serica != Flt.NaN) &&
  ((r.albumina_urinaria != Flt.NaN) &&
  ((r.creatinina_urinaria != Flt.NaN) &&
  ((r.peso_kg != Flt.NaN) &&
  ((r.altura_cm != Flt.NaN) &&
  ((r.IMC != Flt.NaN) &&
  ((r.TAS1 != Flt.NaN) &&
  ((r.TAS2 != Flt.NaN) &&
  ((r.TAS3 != Flt.NaN) &&
  ((r.TAS4 != Flt.NaN) &&
  ((r.TAD1 != Flt.NaN) &&
  ((r.TAD2 != Flt.NaN) &&
  ((r.TAD3 != Flt.NaN) &&
  ((r.TAD4 != Flt.NaN) &&
  ((r.edad_anos != Flt.NaN) &&
  ((r.ACR != Flt.NaN) &&
  (r.eGFR != Flt.NaN))))))))))))))))))))

/-- Every per-column median is itself non-missing (the column had at
least one value and no infinite cancellation). -/
def mediansDefined (ms : Medians) : Bool :=
  (ms.peso_muestral_examen != Flt.NaN) &&
  ((ms.peso_muestral_entrevista != Flt.NaN) &&
  ((ms.unidad_muestral_psu != Flt.NaN) &&
  ((ms.estrato_muestral != Flt.NaN) &&
  ((ms.creatinina_serica != Flt.NaN) &&
  ((ms.albumina_urinaria != Flt.NaN) &&
  ((ms.creatinina_urinaria != Flt.NaN) &&
  ((ms.peso_kg != Flt.NaN) &&
  ((ms.altura_cm != Flt.NaN) &&
  ((ms.IMC != Flt.NaN) &&
  ((ms.TAS1 != Flt.NaN) &&
  ((ms.TAS2 != Flt.NaN) &&
  ((ms.TAS3 != Flt.NaN) &&
  ((ms.TAS4 != Flt.NaN) &&
  ((ms.TAD1 != Flt.NaN) &&
  ((ms.TAD2 != Flt.NaN) &&
  ((ms.TAD3 != Flt.NaN) &&
  ((ms.TAD4 != Flt.NaN) &&
  ((ms.edad_anos != Flt.NaN) &&
  ((ms.ACR != Flt.NaN) &&
  (ms.eGFR != Flt.NaN))))))))))))))))))))

def w3 : Inputs :=
  ⟨[⟨"1", Flt.num (qMk 1 0), Flt.num (qMk 1 0), Flt.num (qMk 1 0), Flt.num (qMk 1 0),
     Flt.num (qMk 1 0), Flt.num (qMk 1 0), Flt.num (qMk 1 0), Flt.num (qMk 1 0)⟩],
   [⟨"1", Flt.num (qMk 50 0), Flt.num (qMk 2 0)⟩],
   [⟨"1", Flt.num (qMk 1 0), Flt.num (qMk 1 0), Flt.num (qMk 100 0), Flt.num (qMk 1 0),
     Flt.num (qMk 1 0), Flt.num (qMk 1 0), Flt.num (qMk 1 0), Flt.num (qMk 1 0),
     Flt.num (qMk 1 0), Flt.num (qMk 1 0), Flt.num (qMk 1 0), Flt.num (qMk 1 0),
     Flt.num (qMk 1 0), Flt.num (qMk 1 0)⟩],
   [⟨"1", Flt.num (qMk 1 0), Flt.num (qMk 1 0), Flt.num (qMk 1 0), Flt.num (qMk 1 0),
     Flt.num (qMk 1 0), Flt.num (qMk 1 0), Flt.num (qMk 1 0), Flt.num (qMk 1 0),
     Flt.num (qMk 1 0)⟩],
   [⟨"1", Flt.num (qMk 1 0), Flt.num (qMk 1 0)⟩]⟩

def w3out : List MergedRow := ((run_transformations fpowOne w3).toOption).getD []

def w3pre : List MergedRow := ((preTable fpowOne w3).toOption).getD []

@[simp] lemma exceptOkBind {ε α β : Type} (a : α) (k : α → Except ε β) :
    (Except.ok a >>= k) = k a := rfl

@[simp] lemma exceptErrorBind {ε α β : Type} (e : ε) (k : α → Except ε β) :
    ((Except.error e : Except ε α) >>= k) = Except.error e := rfl

@[simp] lemma exceptMapOk {ε α β : Type} (f : α → β) (a : α) :
    (Except.ok a : Except ε α).map f = Except.ok (f a) := rfl

@[simp] lemma exceptMapError {ε α β : Type} (f : α → β) (e : ε) :
    (Except.error e : Except ε α).map f = (Except.error e : Except ε β) := rfl

@[simp] lemma exceptMap_isOk {ε α β : Type} (f : α → β) (e : Except ε α) :
    (e.map f).isOk = e.isOk := by cases e <;> rfl

lemma exceptMap_ok_elim {ε α β : Type} {f : α → β} {e : Except ε α} {b : β}
    (h : e.map f = Except.ok b) : ∃ a, e = Except.ok a ∧ b = f a := by
  cases e with
  | error x => simp at h
  | ok a => exact ⟨a, rfl, by simpa using h.symm⟩

lemma memB_iff (s : String) (l : List String) : memB s l = true ↔ s ∈ l := by
  induction l with
  | nil => simp [memB]
  | cons x xs ih => simp [memB, ih, beq_iff_eq]

lemma memB_eq_false_iff (s : String) (l : List String) :
    memB s l = false ↔ s ∉ l := by
  cases h : memB s l <;> simp [← memB_iff, h]

lemma nodupB_iff (l : List String) : nodupB l = true ↔ l.Nodup := by
  induction l with
  | nil => simp [nodupB]
  | cons x xs ih =>
      simp [nodupB, List.nodup_cons, ih, memB_eq_false_iff]

lemma merge_ok_intro {L R : Type} (step : String) (lid : L → String)
    (rid : R → String) (left : List L) (right : List R)
    (h1 : (left.map lid).Nodup) (h2 : (right.map rid).Nodup) :
    mergeOneToOne step lid rid left right =
      Except.ok (left.map (fun l => (l, right.find? (fun r => rid r == lid l)))) := by
  unfold mergeOneToOne
  rw [if_pos]
  rw [Bool.and_eq_true, nodupB_iff, nodupB_iff]
  exact ⟨h1, h2⟩

lemma merge_ok_elim {L R : Type} {step : String} {lid : L → String}
    {rid : R → String} {left : List L} {right : List R}
    {res : List (L × Option R)}
    (h : mergeOneToOne step lid rid left right = Except.ok res) :
    res = left.map (fun l => (l, right.find? (fun r => rid r == lid l)))
      ∧ (left.map lid).Nodup ∧ (right.map rid).Nodup := by
  unfold mergeOneToOne at h
  split at h
  case isTrue hc =>
    rw [Bool.and_eq_true, nodupB_iff, nodupB_iff] at hc
    exact ⟨(Except.ok.inj h).symm, hc⟩
  case isFalse hc => simp at h

lemma merge_error_of {L R : Type} (step : String) (lid : L → String)
    (rid : R → String) (left : List L) (right : List R)
    (h : ¬ ((left.map lid).Nodup ∧ (right.map rid).Nodup)) :
    (mergeOneToOne step lid rid left right).isOk = false := by
  unfold mergeOneToOne
  rw [if_neg]
  · rfl
  · rw [Bool.and_eq_true, nodupB_iff, nodupB_iff]; exact h

lemma map_filter_comm {α β : Type} (f : α → β) (q : β → Bool) (l : List α) :
    (l.filter (fun x => q (f x))).map f = (l.map f).filter q := by
  induction l with
  | nil => rfl
  | cons a l ih =>
      by_cases h : q (f a) <;> simp [List.filter_cons, h, ih]

lemma prepDemo_ids (l : List DemoRow) :
    (prepDemo l).map (fun r => r.id) = l.map (fun r => pyStrip r.id) := by
  simp [prepDemo, List.map_map]

lemma prepResp_ids (l : List RespRow) :
    (prepResp l).map (fun r => r.id) = l.map (fun r => pyStrip r.id) := by
  simp [prepResp, List.map_map]

lemma prepQuest_ids (l : List QuestRow) :
    (prepQuest l).map (fun r => r.id) = l.map (fun r => pyStrip r.id) := by
  simp [prepQuest, List.map_map]

lemma prepMort_ids (l : List MortRow) :
    (prepMort l).map (fun r => r.id) = l.map (fun r => pyStrip r.id) := by
  simp [prepMort, List.map_map]

lemma prepDiet_ids (l : List DietRow) :
    (prepDiet l).map (fun r => r.id) = l.map (fun r => pyStrip r.id) := by
  simp [prepDiet, List.map_map]

@[simp] lemma exceptIsOk_ok {ε α : Type} (a : α) :
    (Except.ok a : Except ε α).isOk = true := rfl

@[simp] lemma exceptIsOk_error {ε α : Type} (e : ε) :
    (Except.error e : Except ε α).isOk = false := rfl

lemma dedupAux_mem_seen (l : List DietRowR) :
    ∀ seen r, r ∈ dedupFirstAux seen l → memB r.id seen = false := by
  induction l with
  | nil => intro seen r h; simp [dedupFirstAux] at h
  | cons a rs ih =>
      intro seen r h
      unfold dedupFirstAux at h
      by_cases hs : memB a.id seen = true
      · rw [if_pos hs] at h; exact ih seen r h
      · rw [if_neg hs] at h
        rcases List.mem_cons.1 h with he | ht
        · subst he; exact Bool.not_eq_true _ ▸ (Bool.eq_false_iff.2 hs)
        · have := ih (a.id :: seen) r ht
          unfold memB at this
          exact (Bool.or_eq_false_iff.1 this).2

lemma dedupAux_nodup (l : List DietRowR) :
    ∀ seen, ((dedupFirstAux seen l).map (fun r => r.id)).Nodup := by
  induction l with
  | nil => intro seen; simp [dedupFirstAux]
  | cons a rs ih =>
      intro seen
      unfold dedupFirstAux
      by_cases hs : memB a.id seen = true
      · rw [if_pos hs]; exact ih seen
      · rw [if_neg hs]
        simp only [List.map_cons, List.nodup_cons]
        refine ⟨?_, ih (a.id :: seen)⟩
        intro hmem
        rcases List.mem_map.1 hmem with ⟨x, hx, hxe⟩
        have := dedupAux_mem_seen rs (a.id :: seen) x hx
        unfold memB at this
        have h1 := (Bool.or_eq_false_iff.1 this).1
        rw [hxe] at h1
        simp at h1

lemma dedupAux_find_first (l : List DietRowR) :
    ∀ seen r, r ∈ dedupFirstAux seen l →
      l.find? (fun x => x.id == r.id) = some r := by
  induction l with
  | nil => intro seen r h; simp [dedupFirstAux] at h
  | cons a rs ih =>
      intro seen r h
      unfold dedupFirstAux at h
      by_cases hs : memB a.id seen = true
      · rw [if_pos hs] at h
        have hne : (a.id == r.id) = false := by
          rw [beq_eq_false_iff_ne]
          intro he
          have hrs := dedupAux_mem_seen rs seen r h
          rw [← he] at hrs
          rw [hrs] at hs; cases hs
        rw [List.find?_cons, hne]
        exact ih seen r h
      · rw [if_neg hs] at h
        rcases List.mem_cons.1 h with he | ht
        · subst he
          rw [List.find?_cons]
          simp
        · have hmem := dedupAux_mem_seen rs (a.id :: seen) r ht
          unfold memB at hmem
          have h1 := (Bool.or_eq_false_iff.1 hmem).1
          have hne : (a.id == r.id) = false := by
            rw [beq_eq_false_iff_ne]
            rw [beq_eq_false_iff_ne] at h1
            exact fun he => h1 he.symm
          rw [List.find?_cons, hne]
          exact ih (a.id :: seen) r ht

lemma dedupAux_find_eq (l : List DietRowR) :
    ∀ seen s, memB s seen = false →
      (dedupFirstAux seen l).find? (fun x => x.id == s) =
        l.find? (fun x => x.id == s) := by
  induction l with
  | nil => intro seen s _; rfl
  | cons a rs ih =>
      intro seen s hs
      unfold dedupFirstAux
      by_cases hm : memB a.id seen = true
      · rw [if_pos hm]
        have hne : (a.id == s) = false := by
          rw [beq_eq_false_iff_ne]
          intro he; rw [he] at hm; rw [hm] at hs; cases hs
        rw [List.find?_cons, hne]
        exact ih seen s hs
      · rw [if_neg hm]
        by_cases he : (a.id == s) = true
        · rw [List.find?_cons, he, List.find?_cons, he]
        · have hne : (a.id == s) = false := Bool.eq_false_iff.2 he
          rw [List.find?_cons, hne, List.find?_cons, hne]
          refine ih (a.id :: seen) s ?_
          unfold memB
          rw [Bool.or_eq_false_iff]
          constructor
          · rw [beq_eq_false_iff_ne]
            rw [beq_eq_false_iff_ne] at hne
            exact fun hc => hne hc.symm
          · exact hs

lemma dedupAux_count (l : List DietRowR) :
    ∀ seen a, a ∈ l → memB a.id seen = false →
      (dedupFirstAux seen l).countP (fun x => x.id == a.id) = 1 := by
  induction l with
  | nil => intro seen a h; cases h
  | cons b rs ih =>
      intro seen a ha hf
      unfold dedupFirstAux
      by_cases hs : memB b.id seen = true
      · rw [if_pos hs]
        rcases List.mem_cons.1 ha with he | ht
        · subst he; rw [hf] at hs; cases hs
        · exact ih seen a ht hf
      · rw [if_neg hs]
        by_cases hab : (b.id == a.id) = true
        · have hzero : (dedupFirstAux (b.id :: seen) rs).countP (fun x => x.id == a.id) = 0 := by
            rw [List.countP_eq_zero]
            intro x hx
            have := dedupAux_mem_seen rs (b.id :: seen) x hx
            unfold memB at this
            have h1 := (Bool.or_eq_false_iff.1 this).1
            rw [beq_iff_eq] at hab
            rw [beq_eq_false_iff_ne] at h1
            simp only [beq_iff_eq]
            rw [← hab]
            exact fun hc => h1 hc
          rw [List.countP_cons, hzero, hab]
          rfl
        · have hne : (b.id == a.id) = false := Bool.eq_false_iff.2 hab
          have hanotb : a ≠ b := by
            intro he; subst he
            rw [beq_eq_false_iff_ne] at hne
            exact hne rfl
          have ht : a ∈ rs := by
            rcases List.mem_cons.1 ha with he | ht
            · exact absurd he hanotb
            · exact ht
          have hf2 : memB a.id (b.id :: seen) = false := by
            unfold memB
            rw [Bool.or_eq_false_iff]
            refine ⟨?_, hf⟩
            rw [beq_eq_false_iff_ne]
            rw [beq_eq_false_iff_ne] at hne
            exact fun hc => hne hc.symm
          rw [List.countP_cons, hne]
          simp [ih (b.id :: seen) a ht hf2]

lemma mergeStage_eq_ok (dfs : Inputs)
    (hd : (dfs.demographic.map (fun r => pyStrip r.id)).Nodup)
    (hr : (dfs.response.map (fun r => pyStrip r.id)).Nodup)
    (hq : (dfs.questionnaire.map (fun r => pyStrip r.id)).Nodup)
    (hm : (dfs.mortality.map (fun r => pyStrip r.id)).Nodup) :
    mergeStage dfs = Except.ok (mergeStageVal dfs) := by
  have hdem : ((prepDemo dfs.demographic).map (fun r => r.id)).Nodup := by
    rw [prepDemo_ids]; exact hd
  have hresp : ((prepResp dfs.response).map (fun r => r.id)).Nodup := by
    rw [prepResp_ids]; exact hr
  have hquest : ((prepQuest dfs.questionnaire).map (fun r => r.id)).Nodup := by
    rw [prepQuest_ids]; exact hq
  have hmort : ((prepMort dfs.mortality).map (fun r => r.id)).Nodup := by
    rw [prepMort_ids]; exact hm
  have hdiet : ((dedupFirst (prepDiet dfs.dietary)).map (fun r => r.id)).Nodup :=
    dedupAux_nodup _ []
  have hl2 : ((jr1 dfs).map (fun p => p.1.id)).Nodup := by
    rw [jr1, List.map_map]; exact hdem
  have hl3 : ((jr2 dfs).map (fun p => p.1.1.id)).Nodup := by
    rw [jr2, List.map_map, jr1, List.map_map]; exact hdem
  have hl4 : ((jr3 dfs).map (fun p => p.1.1.1.id)).Nodup := by
    rw [jr3, List.map_map, jr2, List.map_map, jr1, List.map_map]; exact hdem
  have h1 : mergeOneToOne "response" (fun r => r.id) (fun r => r.id)
      (prepDemo dfs.demographic) (prepResp dfs.response) = Except.ok (jr1 dfs) :=
    merge_ok_intro _ _ _ _ _ hdem hresp
  have h2 : mergeOneToOne "questionnaire" (fun p => p.1.id) (fun r => r.id)
      (jr1 dfs) (prepQuest dfs.questionnaire) = Except.ok (jr2 dfs) :=
    merge_ok_intro _ _ _ _ _ hl2 hquest
  have h3 : mergeOneToOne "mortality" (fun p => p.1.1.id) (fun r => r.id)
      (jr2 dfs) (prepMort dfs.mortality) = Except.ok (jr3 dfs) :=
    merge_ok_intro _ _ _ _ _ hl3 hmort
  have h4 : mergeOneToOne "dietary" (fun p => p.1.1.1.id) (fun r => r.id)
      (jr3 dfs) (dedupFirst (prepDiet dfs.dietary)) = Except.ok (jr4 dfs) :=
    merge_ok_intro _ _ _ _ _ hl4 hdiet
  unfold mergeStage
  rw [h1]
  simp only [exceptOkBind]
  rw [h2]
  simp only [exceptOkBind]
  rw [h3]
  simp only [exceptOkBind]
  rw [h4]
  simp only [exceptOkBind]
  rfl

lemma mergeStage_isOk_iff (dfs : Inputs) :
    (mergeStage dfs).isOk = true ↔
      ((dfs.demographic.map (fun r => pyStrip r.id)).Nodup
        ∧ (dfs.response.map (fun r => pyStrip r.id)).Nodup
        ∧ (dfs.questionnaire.map (fun r => pyStrip r.id)).Nodup
        ∧ (dfs.mortality.map (fun r => pyStrip r.id)).Nodup) := by
  constructor
  · intro h
    unfold mergeStage at h
    rcases e1 : mergeOneToOne "response" (fun r => r.id) (fun r => r.id)
        (prepDemo dfs.demographic) (prepResp dfs.response) with er1 | m1
    · rw [e1] at h; simp at h
    · rw [e1] at h
      simp only [exceptOkBind] at h
      obtain ⟨hv1, hl1, hr1⟩ := merge_ok_elim e1
      rcases e2 : mergeOneToOne "questionnaire" (fun p => p.1.id) (fun r => r.id)
          m1 (prepQuest dfs.questionnaire) with er2 | m2
      · rw [e2] at h; simp at h
      · rw [e2] at h
        simp only [exceptOkBind] at h
        obtain ⟨hv2, hl2, hr2⟩ := merge_ok_elim e2
        rcases e3 : mergeOneToOne "mortality" (fun p => p.1.1.id) (fun r => r.id)
            m2 (prepMort dfs.mortality) with er3 | m3
        · rw [e3] at h; simp at h
        · obtain ⟨hv3, hl3, hr3⟩ := merge_ok_elim e3
          refine ⟨?_, ?_, ?_, ?_⟩
          · rw [← prepDemo_ids]; exact hl1
          · rw [← prepResp_ids]; exact hr1
          · rw [← prepQuest_ids]; exact hr2
          · rw [← prepMort_ids]; exact hr3
  · rintro ⟨hd, hr, hq, hm⟩
    rw [mergeStage_eq_ok dfs hd hr hq hm]
    rfl

lemma run_isOk_eq (fpow : Flt → Flt → Flt) (dfs : Inputs) :
    (run_transformations fpow dfs).isOk = (mergeStage dfs).isOk := by
  unfold run_transformations preTable
  rw [exceptMap_isOk, exceptMap_isOk]

lemma run_ok_elim {fpow : Flt → Flt → Flt} {dfs : Inputs} {t : List MergedRow}
    (h : run_transformations fpow dfs = Except.ok t) :
    ∃ m, mergeStage dfs = Except.ok m
      ∧ t = fillStage ((m.map (deriveRow fpow)).filter (fun r => !(idStartsWithIM r.id))) := by
  unfold run_transformations at h
  obtain ⟨p, hp, ht⟩ := exceptMap_ok_elim h
  unfold preTable at hp
  obtain ⟨m, hm2, hpm⟩ := exceptMap_ok_elim hp
  exact ⟨m, hm2, by rw [ht, hpm]⟩

lemma mergeStage_ok_val {dfs : Inputs} {m : List MergedRow}
    (h : mergeStage dfs = Except.ok m) : m = mergeStageVal dfs := by
  have hOk : (mergeStage dfs).isOk = true := by rw [h]; rfl
  obtain ⟨hd, hr, hq, hm2⟩ := (mergeStage_isOk_iff dfs).1 hOk
  have he := mergeStage_eq_ok dfs hd hr hq hm2
  rw [h] at he
  exact Except.ok.inj he

lemma mergeStageVal_ids (dfs : Inputs) :
    (mergeStageVal dfs).map (fun r => r.id) = dfs.demographic.map (fun r => pyStrip r.id) := by
  rw [mergeStageVal, jr4, jr3, jr2, jr1, List.map_map, List.map_map, List.map_map,
    List.map_map, List.map_map]
  exact prepDemo_ids dfs.demographic

lemma id_filter_helper (l : List MergedRow) :
    ((l.filter (fun r => !(idStartsWithIM r.id))).map (fun r => r.id)) =
      (l.map (fun r => r.id)).filter (fun s => !(idStartsWithIM s)) := by
  induction l with
  | nil => rfl
  | cons a l ih =>
      by_cases h : (!(idStartsWithIM a.id)) = true <;>
        simp [List.filter_cons, h, ih]

lemma fillStage_ids (rows : List MergedRow) :
    (fillStage rows).map (fun r => r.id) = rows.map (fun r => fillId r.id) := by
  unfold fillStage
  rw [List.map_map, List.map_map]
  rfl

lemma preRows_ids (fpow : Flt → Flt → Flt) (dfs : Inputs) :
    (((mergeStageVal dfs).map (deriveRow fpow)).filter
        (fun r => !(idStartsWithIM r.id))).map (fun r => r.id)
      = (dfs.demographic.map (fun r => pyStrip r.id)).filter (fun s => !(idStartsWithIM s)) := by
  rw [id_filter_helper, List.map_map]
  have : (mergeStageVal dfs).map ((fun r : MergedRow => r.id) ∘ deriveRow fpow)
      = (mergeStageVal dfs).map (fun r => r.id) := rfl
  rw [this, mergeStageVal_ids]

lemma merge_error_intro {L R : Type} (step : String) (lid : L → String)
    (rid : R → String) (left : List L) (right : List R)
    (h : ¬(((left.map lid).Nodup) ∧ ((right.map rid).Nodup))) :
    mergeOneToOne step lid rid left right =
      Except.error ("MergeError: merge keys are not unique in " ++ step ++ " merge") := by
  unfold mergeOneToOne
  rw [if_neg]
  rw [Bool.and_eq_true, nodupB_iff, nodupB_iff]
  exact h

/-- Claim C2: the pipeline returns a table exactly when the demographic,
response, questionnaire and mortality key columns are duplicate-free
after normalisation (so a key collision never silently duplicates or
drops rows), and a duplicate makes it raise `MergeError` at the
corresponding one-to-one join step. -/
theorem join_cardinality_iff (fpow : Flt → Flt → Flt) (dfs : Inputs) :
    ((run_transformations fpow dfs).isOk = true ↔
      ((dfs.demographic.map (fun r => pyStrip r.id)).Nodup
        ∧ (dfs.response.map (fun r => pyStrip r.id)).Nodup
        ∧ (dfs.questionnaire.map (fun r => pyStrip r.id)).Nodup
        ∧ (dfs.mortality.map (fun r => pyStrip r.id)).Nodup))
    ∧ (¬(dfs.demographic.map (fun r => pyStrip r.id)).Nodup
        ∨ ¬(dfs.response.map (fun r => pyStrip r.id)).Nodup →
        run_transformations fpow dfs =
          Except.error "MergeError: merge keys are not unique in response merge")
    ∧ ((dfs.demographic.map (fun r => pyStrip r.id)).Nodup →
        (dfs.response.map (fun r => pyStrip r.id)).Nodup →
        ¬(dfs.questionnaire.map (fun r => pyStrip r.id)).Nodup →
        run_transformations fpow dfs =
          Except.error "MergeError: merge keys are not unique in questionnaire merge")
    ∧ ((dfs.demographic.map (fun r => pyStrip r.id)).Nodup →
        (dfs.response.map (fun r => pyStrip r.id)).Nodup →
        (dfs.questionnaire.map (fun r => pyStrip r.id)).Nodup →
        ¬(dfs.mortality.map (fun r => pyStrip r.id)).Nodup →
        run_transformations fpow dfs =
          Except.error "MergeError: merge keys are not unique in mortality merge") := by
  refine ⟨?_, ?_, ?_, ?_⟩
  · rw [run_isOk_eq]
    exact mergeStage_isOk_iff dfs
  · intro hc
    have he : mergeOneToOne "response" (fun r => r.id) (fun r => r.id)
        (prepDemo dfs.demographic) (prepResp dfs.response) =
        Except.error "MergeError: merge keys are not unique in response merge" := by
      refine merge_error_intro _ _ _ _ _ ?_
      rcases hc with h1 | h2
      · exact fun hcc => h1 (by rw [← prepDemo_ids]; exact hcc.1)
      · exact fun hcc => h2 (by rw [← prepResp_ids]; exact hcc.2)
    unfold run_transformations preTable mergeStage
    rw [he]
    rfl
  · intro hd2 hr2 hq2
    have h1 : mergeOneToOne "response" (fun r => r.id) (fun r => r.id)
        (prepDemo dfs.demographic) (prepResp dfs.response) = Except.ok (jr1 dfs) :=
      merge_ok_intro _ _ _ _ _ (by rw [prepDemo_ids]; exact hd2)
        (by rw [prepResp_ids]; exact hr2)
    have h2 : mergeOneToOne "questionnaire" (fun p => p.1.id) (fun r => r.id)
        (jr1 dfs) (prepQuest dfs.questionnaire) =
        Except.error "MergeError: merge keys are not unique in questionnaire merge" :=
      merge_error_intro _ _ _ _ _
        (fun hcc => hq2 (by rw [← prepQuest_ids]; exact hcc.2))
    unfold run_transformations preTable mergeStage
    rw [h1]
    simp only [exceptOkBind]
    rw [h2]
    rfl
  · intro hd2 hr2 hq2 hm2
    have hdem : ((prepDemo dfs.demographic).map (fun r => r.id)).Nodup := by
      rw [prepDemo_ids]; exact hd2
    have h1 : mergeOneToOne "response" (fun r => r.id) (fun r => r.id)
        (prepDemo dfs.demographic) (prepResp dfs.response) = Except.ok (jr1 dfs) :=
      merge_ok_intro _ _ _ _ _ hdem (by rw [prepResp_ids]; exact hr2)
    have hl2 : ((jr1 dfs).map (fun p => p.1.id)).Nodup := by
      rw [jr1, List.map_map]; exact hdem
    have h2 : mergeOneToOne "questionnaire" (fun p => p.1.id) (fun r => r.id)
        (jr1 dfs) (prepQuest dfs.questionnaire) = Except.ok (jr2 dfs) :=
      merge_ok_intro _ _ _ _ _ hl2 (by rw [prepQuest_ids]; exact hq2)
    have h3 : mergeOneToOne "mortality" (fun p => p.1.1.id) (fun r => r.id)
        (jr2 dfs) (prepMort dfs.mortality) =
        Except.error "MergeError: merge keys are not unique in mortality merge" :=
      merge_error_intro _ _ _ _ _
        (fun hcc => hm2 (by rw [← prepMort_ids]; exact hcc.2))
    unfold run_transformations preTable mergeStage
    rw [h1]
    simp only [exceptOkBind]
    rw [h2]
    simp only [exceptOkBind]
    rw [h3]
    rfl

/-- Witness for C2: two response rows whose ids both normalise to `"2"`
make the response join raise `MergeError` and the pipeline return no
table. -/
theorem join_cardinality_witness :
    run_transformations fpowNaN w2 =
      Except.error "MergeError: merge keys are not unique in response merge" :=
  (join_cardinality_iff fpowNaN w2).2.1 (Or.inr (by decide))

/-- Claim C1 (amended): when the pipeline returns a table, the output id
column is exactly the demographic source's normalised id column with the
`"I-"`-prefixed ids removed — each surviving id once and in order —
except that an id that trims to the empty string is rewritten by the
text fill to the sentinel `"Sin categoria"` (the `fillId` map). -/
theorem left_join_completeness (fpow : Flt → Flt → Flt) (dfs : Inputs)
    (t : List MergedRow) (h : run_transformations fpow dfs = Except.ok t) :
    t.map (fun r => r.id) =
      ((dfs.demographic.map (fun r => pyStrip r.id)).filter
        (fun s => !(idStartsWithIM s))).map fillId
    ∧ ((dfs.demographic.map (fun r => pyStrip r.id)).filter
        (fun s => !(idStartsWithIM s))).Nodup := by
  obtain ⟨m, hm, ht⟩ := run_ok_elim h
  have hOk : (mergeStage dfs).isOk = true := by rw [hm]; rfl
  obtain ⟨hd, _, _, _⟩ := (mergeStage_isOk_iff dfs).1 hOk
  have hval := mergeStage_ok_val hm
  subst hval
  constructor
  · rw [ht, fillStage_ids]
    have h2 : (((mergeStageVal dfs).map (deriveRow fpow)).filter
          (fun r => !(idStartsWithIM r.id))).map (fun r => fillId r.id)
        = ((((mergeStageVal dfs).map (deriveRow fpow)).filter
          (fun r => !(idStartsWithIM r.id))).map (fun r => r.id)).map fillId := by
      rw [List.map_map]
      rfl
    rw [h2, preRows_ids]
  · exact List.Nodup.filter _ hd

/-- Witness for C1 at a two-row demographic input: id `"7"` is kept, id
`"I-3"` is excluded. -/
theorem left_join_completeness_witness :
    w1out.map (fun r => r.id) =
      ((w1.demographic.map (fun r => pyStrip r.id)).filter
        (fun s => !(idStartsWithIM s))).map fillId
    ∧ ((w1.demographic.map (fun r => pyStrip r.id)).filter
        (fun s => !(idStartsWithIM s))).Nodup :=
  left_join_completeness fpowNaN w1 w1out rfl

/-- Counterexample to C1 as stated: a demographic id that trims to the
empty string survives exclusion (it does not start with `"I-"`), yet no
output row carries it — the text fill rewrites it to `"Sin categoria"`. -/
theorem left_join_completeness_counterexample :
    ((cexC1.demographic.map (fun r => pyStrip r.id)).filter
        (fun s => !(idStartsWithIM s))) = [""]
    ∧ (run_transformations fpowNaN cexC1).toOption.map
        (fun t => t.map (fun r => r.id)) = some ["Sin categoria"]
    ∧ (["Sin categoria"].contains "") = false := by
  refine ⟨rfl, rfl, rfl⟩

lemma qLt_iff (a b : Q) : qLt a b = true ↔ a.n * qDen b < b.n * qDen a := by
  simp [qLt]

lemma qLe_iff (a b : Q) : qLe a b = true ↔ a.n * qDen b ≤ b.n * qDen a := by
  simp [qLe]

lemma qLt_eq_false_iff (a b : Q) : qLt a b = false ↔ ¬(a.n * qDen b < b.n * qDen a) := by
  simp [qLt]

lemma qLe_eq_false_iff (a b : Q) : qLe a b = false ↔ ¬(a.n * qDen b ≤ b.n * qDen a) := by
  simp [qLe]

/-- Claim C9: the marital-status recode is the two sequential
substitutions `replace({6:1, 5:12, 3:2, 4:2})` then `replace({12:3})`
applied to the raw column, so raw 5 lands on 3 through the reused
intermediate 12 (and a raw 12 also lands on 3), after which the
`estado_civil` recode table `{1, 2, 3, 77, 99}` supplies the labels; the
pipeline's demographic recode uses exactly this two-pass map. -/
theorem marital_status_two_pass :
    (∀ x : Flt, estadoCivilTwoPass x = estadoCivilPass2 (estadoCivilPass1 x))
    ∧ (∀ r : DemoRow, (recodeDemo r).estado_civil =
        mapTable reco_estado_civil (estadoCivilTwoPass r.estado_civil))
    ∧ estadoCivilTwoPass (Flt.num (qMk 5 0)) = Flt.num (qMk 3 0)
    ∧ estadoCivilTwoPass (Flt.num (qMk 3 0)) = Flt.num (qMk 2 0)
    ∧ estadoCivilTwoPass (Flt.num (qMk 4 0)) = Flt.num (qMk 2 0)
    ∧ estadoCivilTwoPass (Flt.num (qMk 6 0)) = Flt.num (qMk 1 0)
    ∧ estadoCivilTwoPass (Flt.num (qMk 12 0)) = Flt.num (qMk 3 0)
    ∧ mapTable reco_estado_civil (estadoCivilTwoPass (Flt.num (qMk 5 0)))
        = some "Nunca casado"
    ∧ mapTable reco_estado_civil (estadoCivilTwoPass (Flt.num (qMk 12 0)))
        = some "Nunca casado"
    ∧ mapTable reco_estado_civil (estadoCivilTwoPass (Flt.num (qMk 6 0)))
        = some "Casado/Viviendo con pareja"
    ∧ mapTable reco_estado_civil (estadoCivilTwoPass (Flt.num (qMk 3 0)))
        = some "Viudo/Divorciado/Separado"
    ∧ mapTable reco_estado_civil (estadoCivilTwoPass (Flt.num (qMk 4 0)))
        = some "Viudo/Divorciado/Separado"
    ∧ mapTable reco_estado_civil (estadoCivilTwoPass (Flt.num (qMk 77 0)))
        = some "Negado" := by
  refine ⟨fun x => rfl, fun r => rfl, by decide, by decide, by decide, by decide,
    by decide, by decide, by decide, by decide, by decide, by decide, by decide⟩

/-- Claim C5: the ACR category is the pure three-tier function of the
ACR score — `< 30` gives `"A1"`, `30 ≤ · ≤ 300` gives `"A2"`, `> 300`
gives `"A3"`, a missing score gives a missing category — with the stated
boundary values 25, 30, 300, 301. -/
theorem ratio_category_tiers (x : Flt) :
    (fltLt x (Flt.num (qMk 30 0)) = true → categoria_ACR_of x = some "A1")
    ∧ (fltLe (Flt.num (qMk 30 0)) x = true → fltLe x (Flt.num (qMk 300 0)) = true →
        categoria_ACR_of x = some "A2")
    ∧ (fltLt (Flt.num (qMk 300 0)) x = true → categoria_ACR_of x = some "A3")
    ∧ categoria_ACR_of Flt.NaN = none
    ∧ categoria_ACR_of (Flt.num (qMk 25 0)) = some "A1"
    ∧ categoria_ACR_of (Flt.num (qMk 30 0)) = some "A2"
    ∧ categoria_ACR_of (Flt.num (qMk 300 0)) = some "A2"
    ∧ categoria_ACR_of (Flt.num (qMk 301 0)) = some "A3" := by
  refine ⟨?_, ?_, ?_, by decide, by decide, by decide, by decide, by decide⟩
  · intro h
    match x with
    | Flt.NaN => simp [fltLt] at h
    | Flt.pinf => simp [fltLt] at h
    | Flt.ninf => decide
    | Flt.num a =>
        have hI : a.n * qDen (qMk 30 0) < (qMk 30 0).n * qDen a := (qLt_iff _ _).1 h
        simp only [qMk, qDen] at hI
        have h2 : fltLe (Flt.num (qMk 30 0)) (Flt.num a) = false := by
          show qLe (qMk 30 0) a = false
          rw [qLe_eq_false_iff]
          simp only [qMk, qDen]
          omega
        have h3 : fltLt (Flt.num (qMk 300 0)) (Flt.num a) = false := by
          show qLt (qMk 300 0) a = false
          rw [qLt_eq_false_iff]
          simp only [qMk, qDen]
          omega
        simp [categoria_ACR_of, h, h2, h3]
  · intro h1 h2
    match x with
    | Flt.NaN => simp [fltLe] at h1
    | Flt.pinf => simp [fltLe] at h2
    | Flt.ninf => simp [fltLe] at h1
    | Flt.num a =>
        have hI1 : (qMk 30 0).n * qDen a ≤ a.n * qDen (qMk 30 0) := (qLe_iff _ _).1 h1
        have hI2 : a.n * qDen (qMk 300 0) ≤ (qMk 300 0).n * qDen a := (qLe_iff _ _).1 h2
        simp only [qMk, qDen] at hI1 hI2
        have hA1 : fltLt (Flt.num a) (Flt.num (qMk 30 0)) = false := by
          show qLt a (qMk 30 0) = false
          rw [qLt_eq_false_iff]
          simp only [qMk, qDen]
          omega
        have hA3 : fltLt (Flt.num (qMk 300 0)) (Flt.num a) = false := by
          show qLt (qMk 300 0) a = false
          rw [qLt_eq_false_iff]
          simp only [qMk, qDen]
          omega
        simp [categoria_ACR_of, hA1, h1, h2, hA3]
  · intro h
    match x with
    | Flt.NaN => simp [fltLt] at h
    | Flt.pinf => decide
    | Flt.ninf => simp [fltLt] at h
    | Flt.num a =>
        have hI : (qMk 300 0).n * qDen a < a.n * qDen (qMk 300 0) := (qLt_iff _ _).1 h
        simp only [qMk, qDen] at hI
        have hA1 : fltLt (Flt.num a) (Flt.num (qMk 30 0)) = false := by
          show qLt a (qMk 30 0) = false
          rw [qLt_eq_false_iff]
          simp only [qMk, qDen]
          omega
        have hA2 : fltLe (Flt.num a) (Flt.num (qMk 300 0)) = false := by
          show qLe a (qMk 300 0) = false
          rw [qLe_eq_false_iff]
          simp only [qMk, qDen]
          omega
        simp [categoria_ACR_of, hA1, hA2, h]

/-- Witness for C5 at the concrete score 25: the `< 30` tier applies and
yields `"A1"`. -/
theorem ratio_category_tiers_witness :
    fltLt (Flt.num (qMk 25 0)) (Flt.num (qMk 30 0)) = true
    ∧ categoria_ACR_of (Flt.num (qMk 25 0)) = some "A1" :=
  ⟨by decide, (ratio_category_tiers (Flt.num (qMk 25 0))).1 (by decide)⟩

lemma qDen_pos (a : Q) : 0 < qDen a := by
  simp only [qDen]
  omega

lemma qDen_mk_zero (n : Int) : qDen (qMk n 0) = 1 := rfl

lemma qn_mk (n : Int) (dp : Nat) : (qMk n dp).n = n := rfl

lemma fltLt_right_false (a : Q) (k : Int) (h : k * qDen a ≤ a.n) :
    fltLt (Flt.num a) (Flt.num (qMk k 0)) = false := by
  show qLt a (qMk k 0) = false
  rw [qLt_eq_false_iff, qDen_mk_zero, qn_mk, mul_one]
  omega

lemma fltLt_left_false (k : Int) (a : Q) (h : a.n ≤ k * qDen a) :
    fltLt (Flt.num (qMk k 0)) (Flt.num a) = false := by
  show qLt (qMk k 0) a = false
  rw [qLt_eq_false_iff, qDen_mk_zero, qn_mk, mul_one]
  omega

lemma fltLe_right_false (a : Q) (k : Int) (h : k * qDen a < a.n) :
    fltLe (Flt.num a) (Flt.num (qMk k 0)) = false := by
  show qLe a (qMk k 0) = false
  rw [qLe_eq_false_iff, qDen_mk_zero, qn_mk, mul_one]
  omega

lemma fltLe_left_false (k : Int) (a : Q) (h : a.n < k * qDen a) :
    fltLe (Flt.num (qMk k 0)) (Flt.num a) = false := by
  show qLe (qMk k 0) a = false
  rw [qLe_eq_false_iff, qDen_mk_zero, qn_mk, mul_one]
  omega

lemma fltLe_left_val {k : Int} {a : Q}
    (h : fltLe (Flt.num (qMk k 0)) (Flt.num a) = true) : k * qDen a ≤ a.n := by
  have hv := (qLe_iff _ _).1 h
  rw [qDen_mk_zero, qn_mk, mul_one] at hv
  exact hv

lemma fltLe_right_val {a : Q} {k : Int}
    (h : fltLe (Flt.num a) (Flt.num (qMk k 0)) = true) : a.n ≤ k * qDen a := by
  have hv := (qLe_iff _ _).1 h
  rw [qDen_mk_zero, qn_mk, mul_one] at hv
  exact hv

lemma fltLt_right_val {a : Q} {k : Int}
    (h : fltLt (Flt.num a) (Flt.num (qMk k 0)) = true) : a.n < k * qDen a := by
  have hv := (qLt_iff _ _).1 h
  rw [qDen_mk_zero, qn_mk, mul_one] at hv
  exact hv

lemma fltLt_left_val {k : Int} {a : Q}
    (h : fltLt (Flt.num (qMk k 0)) (Flt.num a) = true) : k * qDen a < a.n := by
  have hv := (qLt_iff _ _).1 h
  rw [qDen_mk_zero, qn_mk, mul_one] at hv
  exact hv

/-- Claim C7: the eGFR category is the pure six-tier function of the
eGFR score — `≥ 90` gives `"G1"`, `[60,90)` gives `"G2"`, `[45,60)`
gives `"G3a"`, `[30,45)` gives `"G3b"`, `[15,30)` gives `"G4"`, `< 15`
gives `"G5"`, missing score gives missing category — with the stated
boundary values 90, 89.9, 44.9, 14.9. -/
theorem filtration_category_tiers (x : Flt) :
    (fltLe (Flt.num (qMk 90 0)) x = true → categoria_eGFR_of x = some "G1")
    ∧ (fltLe (Flt.num (qMk 60 0)) x = true → fltLt x (Flt.num (qMk 90 0)) = true →
        categoria_eGFR_of x = some "G2")
    ∧ (fltLe (Flt.num (qMk 45 0)) x = true → fltLt x (Flt.num (qMk 60 0)) = true →
        categoria_eGFR_of x = some "G3a")
    ∧ (fltLe (Flt.num (qMk 30 0)) x = true → fltLt x (Flt.num (qMk 45 0)) = true →
        categoria_eGFR_of x = some "G3b")
    ∧ (fltLe (Flt.num (qMk 15 0)) x = true → fltLt x (Flt.num (qMk 30 0)) = true →
        categoria_eGFR_of x = some "G4")
    ∧ (fltLt x (Flt.num (qMk 15 0)) = true → categoria_eGFR_of x = some "G5")
    ∧ categoria_eGFR_of Flt.NaN = none
    ∧ categoria_eGFR_of (Flt.num (qMk 90 0)) = some "G1"
    ∧ categoria_eGFR_of (Flt.num (qMk 899 9)) = some "G2"
    ∧ categoria_eGFR_of (Flt.num (qMk 449 9)) = some "G3b"
    ∧ categoria_eGFR_of (Flt.num (qMk 149 9)) = some "G5" := by
  refine ⟨?_, ?_, ?_, ?_, ?_, ?_, by decide, by decide, by decide, by decide, by decide⟩
  · intro h
    match x with
    | Flt.NaN => simp [fltLe] at h
    | Flt.pinf => decide
    | Flt.ninf => simp [fltLe] at h
    | Flt.num a =>
        have hD := qDen_pos a
        have v1 := fltLe_left_val h
        simp [categoria_eGFR_of, h,
          fltLt_right_false a 90 (by omega), fltLt_right_false a 60 (by omega),
          fltLt_right_false a 45 (by omega), fltLt_right_false a 30 (by omega),
          fltLt_right_false a 15 (by omega)]
  · intro h1 h2
    match x with
    | Flt.NaN => simp [fltLe] at h1
    | Flt.pinf => simp [fltLt] at h2
    | Flt.ninf => simp [fltLe] at h1
    | Flt.num a =>
        have hD := qDen_pos a
        have v1 := fltLe_left_val h1
        have v2 := fltLt_right_val h2
        simp [categoria_eGFR_of, h1, h2,
          fltLe_left_false 90 a (by omega), fltLt_right_false a 60 (by omega),
          fltLt_right_false a 45 (by omega), fltLt_right_false a 30 (by omega),
          fltLt_right_false a 15 (by omega)]
  · intro h1 h2
    match x with
    | Flt.NaN => simp [fltLe] at h1
    | Flt.pinf => simp [fltLt] at h2
    | Flt.ninf => simp [fltLe] at h1
    | Flt.num a =>
        have hD := qDen_pos a
        have v1 := fltLe_left_val h1
        have v2 := fltLt_right_val h2
        simp [categoria_eGFR_of, h1, h2,
          fltLe_left_false 90 a (by omega), fltLe_left_false 60 a (by omega),
          fltLt_right_false a 45 (by omega), fltLt_right_false a 30 (by omega),
          fltLt_right_false a 15 (by omega)]
  · intro h1 h2
    match x with
    | Flt.NaN => simp [fltLe] at h1
    | Flt.pinf => simp [fltLt] at h2
    | Flt.ninf => simp [fltLe] at h1
    | Flt.num a =>
        have hD := qDen_pos a
        have v1 := fltLe_left_val h1
        have v2 := fltLt_right_val h2
        simp [categoria_eGFR_of, h1, h2,
          fltLe_left_false 90 a (by omega), fltLe_left_false 60 a (by omega),
          fltLe_left_false 45 a (by omega), fltLt_right_false a 30 (by omega),
          fltLt_right_false a 15 (by omega)]
  · intro h1 h2
    match x with
    | Flt.NaN => simp [fltLe] at h1
    | Flt.pinf => simp [fltLt] at h2
    | Flt.ninf => simp [fltLe] at h1
    | Flt.num a =>
        have hD := qDen_pos a
        have v1 := fltLe_left_val h1
        have v2 := fltLt_right_val h2
        simp [categoria_eGFR_of, h1, h2,
          fltLe_left_false 90 a (by omega), fltLe_left_false 60 a (by omega),
          fltLe_left_false 45 a (by omega), fltLe_left_false 30 a (by omega),
          fltLt_right_false a 15 (by omega)]
  · intro h
    match x with
    | Flt.NaN => simp [fltLt] at h
    | Flt.pinf => simp [fltLt] at h
    | Flt.ninf => decide
    | Flt.num a =>
        have hD := qDen_pos a
        have v1 := fltLt_right_val h
        simp [categoria_eGFR_of, h,
          fltLe_left_false 90 a (by omega), fltLe_left_false 60 a (by omega),
          fltLe_left_false 45 a (by omega), fltLe_left_false 30 a (by omega),
          fltLe_left_false 15 a (by omega)]

/-- Witness for C7 at the concrete score 44.9: the `[30,45)` tier
applies and yields `"G3b"`. -/
theorem filtration_category_tiers_witness :
    fltLe (Flt.num (qMk 30 0)) (Flt.num (qMk 449 9)) = true
    ∧ fltLt (Flt.num (qMk 449 9)) (Flt.num (qMk 45 0)) = true
    ∧ categoria_eGFR_of (Flt.num (qMk 449 9)) = some "G3b" :=
  ⟨by decide, by decide,
    (filtration_category_tiers (Flt.num (qMk 449 9))).2.2.2.1 (by decide) (by decide)⟩

/-- Claim C6: the derived eGFR score is the spec's formula
`142 * min(rate,1)^alpha * max(rate,1)^(-1.200) * 0.9938^age * sex-factor`
rounded to 1 decimal, with `(kappa, alpha, factor)` equal to
`(0.7, -0.241, 1.012)` for `"Mujer"` and `(0.9, -0.302, 1.0)` for
`"Hombre"`, and a missing score for any other or missing sex value —
for every power oracle `fpow`. -/
theorem egfr_formula (fpow : Flt → Flt → Flt) (r : MergedRow) (s : String) :
    (r.sexo = some "Mujer" →
      (deriveRow fpow r).eGFR = fltRound1 (egfr_spec_formula fpow
        r.creatinina_serica r.edad_anos (qMk 7 9) (qMk (-241) 999) (qMk 1012 999)))
    ∧ (r.sexo = some "Hombre" →
      (deriveRow fpow r).eGFR = fltRound1 (egfr_spec_formula fpow
        r.creatinina_serica r.edad_anos (qMk 9 9) (qMk (-302) 999) (qMk 1 0)))
    ∧ (r.sexo = some s → s ≠ "Mujer" → s ≠ "Hombre" →
        (deriveRow fpow r).eGFR = Flt.NaN)
    ∧ (r.sexo = none → (deriveRow fpow r).eGFR = Flt.NaN) := by
  refine ⟨?_, ?_, ?_, ?_⟩
  · intro h
    show fltRound1 (calc_egfr fpow r.creatinina_serica r.edad_anos r.sexo) = _
    rw [h]
    rfl
  · intro h
    show fltRound1 (calc_egfr fpow r.creatinina_serica r.edad_anos r.sexo) = _
    rw [h]
    rfl
  · intro h h1 h2
    show fltRound1 (calc_egfr fpow r.creatinina_serica r.edad_anos r.sexo) = _
    rw [h]
    have e1 : ¬((some s == some "Mujer") = true) := by simp [h1]
    have e2 : ¬((some s == some "Hombre") = true) := by simp [h2]
    rw [calc_egfr, if_neg e1, if_neg e2]
    rfl
  · intro h
    show fltRound1 (calc_egfr fpow r.creatinina_serica r.edad_anos r.sexo) = _
    rw [h]
    rfl

/-- Witness for C6: a female row with serum creatinine 0.6 and age 50
gets exactly the spec formula's rounded value. -/
theorem egfr_formula_witness :
    (deriveRow fpowOne c6row).eGFR = fltRound1 (egfr_spec_formula fpowOne
      c6row.creatinina_serica c6row.edad_anos (qMk 7 9) (qMk (-241) 999) (qMk 1012 999)) :=
  (egfr_formula fpowOne c6row "x").1 rfl

/-- Claim C4 (amended): the ACR pipeline first rescales urinary
creatinine by `* 0.01` rounded to 1 decimal and then divides albumin by
it, rounding to 1 decimal; a missing operand gives a missing score, but
a zero rescaled denominator gives a missing score only when the albumin
operand is zero (or missing) — positive albumin over a zero denominator
is `+inf` and negative albumin is `-inf` (IEEE division), never an
error. -/
theorem ratio_derivation (fpow : Flt → Flt → Flt) (r : MergedRow)
    (a c : Flt) (qa d : Q) :
    (deriveRow fpow r).ACR = acrOf r.albumina_urinaria r.creatinina_urinaria
    ∧ acrOf Flt.NaN c = Flt.NaN
    ∧ acrOf a Flt.NaN = Flt.NaN
    ∧ (a = Flt.num qa → rescaleCreatUrin c = Flt.num d → d.n = 0 →
        ((0 < qa.n → acrOf a c = Flt.pinf)
          ∧ (qa.n < 0 → acrOf a c = Flt.ninf)
          ∧ (qa.n = 0 → acrOf a c = Flt.NaN)))
    ∧ (a = Flt.num qa → rescaleCreatUrin c = Flt.num d → d.n ≠ 0 →
        acrOf a c = Flt.num (round1q (qDiv qa d))) := by
  refine ⟨rfl, ?_, ?_, ?_, ?_⟩
  · cases c <;> rfl
  · cases a <;> rfl
  · intro ha hc hd0
    refine ⟨?_, ?_, ?_⟩
    · intro hp
      simp [acrOf, ha, hc, fltDiv, hd0, hp, fltRound1]
    · intro hn
      have h1 : ¬(0 < qa.n) := by omega
      simp [acrOf, ha, hc, fltDiv, hd0, h1, hn, fltRound1]
    · intro hz
      have h1 : ¬(0 < qa.n) := by omega
      have h2 : ¬(qa.n < 0) := by omega
      simp [acrOf, ha, hc, fltDiv, hd0, h1, h2, fltRound1]
  · intro ha hc hdn
    simp [acrOf, ha, hc, fltDiv, hdn, fltRound1]

/-- Counterexample to C4 as stated: albumin 5 over a zero rescaled
denominator yields `+inf` (which the category step classifies `"A3"`),
not a missing value. -/
theorem ratio_derivation_counterexample :
    acrOf (Flt.num (qMk 5 0)) (Flt.num (qMk 0 0)) = Flt.pinf
    ∧ (deriveRow fpowNaN c4row).ACR = Flt.pinf
    ∧ (deriveRow fpowNaN c4row).categoria_ACR = some "A3"
    ∧ Flt.pinf ≠ Flt.NaN := by
  refine ⟨by decide, by decide, by decide, by decide⟩

/-- Witness for C4 (amended): raw urinary creatinine 4 rescales to
`round(0.04, 1) = 0.0`, and albumin 5 over it gives `+inf`. -/
theorem ratio_derivation_witness :
    acrOf (Flt.num (qMk 5 0)) (Flt.num (qMk 4 0)) = Flt.pinf :=
  ((ratio_derivation fpowNaN mrowDefault (Flt.num (qMk 5 0)) (Flt.num (qMk 4 0))
    (qMk 5 0) (qMk 0 9)).2.2.2.1 rfl (by decide) rfl).1 (by decide)

lemma deriveRow_catACR (fpow : Flt → Flt → Flt) (q : MergedRow) :
    (deriveRow fpow q).categoria_ACR = categoria_ACR_of ((deriveRow fpow q).ACR) := rfl

lemma deriveRow_catEGFR (fpow : Flt → Flt → Flt) (q : MergedRow) :
    (deriveRow fpow q).categoria_eGFR = categoria_eGFR_of ((deriveRow fpow q).eGFR) := rfl

/-- Claim C8: dietary deduplication keeps the first row per normalised
id, so (with the other four key columns duplicate-free) the dietary join
never raises a cardinality error, and every merged row's dietary cells
come from the first dietary row bearing its id. -/
theorem dietary_dedup_first (fpow : Flt → Flt → Flt) (dfs : Inputs)
    (hd : (dfs.demographic.map (fun r => pyStrip r.id)).Nodup)
    (hr : (dfs.response.map (fun r => pyStrip r.id)).Nodup)
    (hq : (dfs.questionnaire.map (fun r => pyStrip r.id)).Nodup)
    (hm : (dfs.mortality.map (fun r => pyStrip r.id)).Nodup) :
    (run_transformations fpow dfs).isOk = true
    ∧ ((dedupFirst (prepDiet dfs.dietary)).map (fun r => r.id)).Nodup
    ∧ (∀ r ∈ dedupFirst (prepDiet dfs.dietary),
        (prepDiet dfs.dietary).find? (fun x => x.id == r.id) = some r)
    ∧ (∀ a ∈ prepDiet dfs.dietary,
        (dedupFirst (prepDiet dfs.dietary)).countP (fun x => x.id == a.id) = 1)
    ∧ (∀ m, mergeStage dfs = Except.ok m → ∀ row ∈ m,
        row.edad_anos = (((prepDiet dfs.dietary).find? (fun x => x.id == row.id)).map
          (fun x => x.edad_anos)).getD Flt.NaN
        ∧ row.sexo = ((prepDiet dfs.dietary).find? (fun x => x.id == row.id)).bind
          (fun x => x.sexo)) := by
  refine ⟨?_, dedupAux_nodup _ [], fun r hr2 => dedupAux_find_first _ [] r hr2,
    fun a ha => dedupAux_count _ [] a ha rfl, ?_⟩
  · rw [run_isOk_eq, mergeStage_isOk_iff]
    exact ⟨hd, hr, hq, hm⟩
  · intro m hm2 row hrow
    have hval := mergeStage_ok_val hm2
    subst hval
    rw [mergeStageVal] at hrow
    obtain ⟨x, hx, hbx⟩ := List.mem_map.1 hrow
    rw [jr4] at hx
    obtain ⟨y, hy, hxy⟩ := List.mem_map.1 hx
    subst hxy
    subst hbx
    have ho : (dedupFirst (prepDiet dfs.dietary)).find? (fun x => x.id == y.1.1.1.id)
        = (prepDiet dfs.dietary).find? (fun x => x.id == y.1.1.1.id) :=
      dedupAux_find_eq _ [] _ rfl
    constructor
    · show (((dedupFirst (prepDiet dfs.dietary)).find?
          (fun x => x.id == y.1.1.1.id)).map (fun x => x.edad_anos)).getD Flt.NaN
        = (((prepDiet dfs.dietary).find?
          (fun x => x.id == y.1.1.1.id)).map (fun x => x.edad_anos)).getD Flt.NaN
      rw [ho]
    · show ((dedupFirst (prepDiet dfs.dietary)).find?
          (fun x => x.id == y.1.1.1.id)).bind (fun x => x.sexo)
        = ((prepDiet dfs.dietary).find?
          (fun x => x.id == y.1.1.1.id)).bind (fun x => x.sexo)
      rw [ho]

/-- Witness for C8: two dietary rows share id `"5"`; the pipeline still
succeeds and exactly one deduplicated dietary row bears that id. -/
theorem dietary_dedup_first_witness :
    (run_transformations fpowNaN w8).isOk = true
    ∧ (dedupFirst (prepDiet w8.dietary)).countP
        (fun x => x.id == (⟨"5", Flt.num (qMk 31 0), some "Hombre"⟩ : DietRowR).id) = 1 :=
  ⟨(dietary_dedup_first fpowNaN w8 (by decide) (by decide) (by decide) (by decide)).1,
   (dietary_dedup_first fpowNaN w8 (by decide) (by decide) (by decide) (by decide)).2.2.2.1
     ⟨"5", Flt.num (qMk 31 0), some "Hombre"⟩ (by decide)⟩

lemma mem_pre_derived {fpow : Flt → Flt → Flt} {dfs : Inputs} {p : List MergedRow}
    (hp : preTable fpow dfs = Except.ok p) :
    ∀ e ∈ p, ∃ q, deriveRow fpow q = e := by
  obtain ⟨m, hm2, hpe⟩ := exceptMap_ok_elim hp
  subst hpe
  intro e he
  obtain ⟨q, _, hq⟩ := List.mem_map.1 (List.mem_of_mem_filter he)
  exact ⟨q, hq⟩

/-- Claim C10: a row whose ACR (resp. eGFR) is missing at derivation
time ends with the fixed sentinel category `"A1(por media)"` (resp.
`"G1(por media)"`) in the final table — the sentinel is assigned from
the pre-fill missing category, independently of the median later written
into the numeric column. -/
theorem category_sentinels (fpow : Flt → Flt → Flt) (dfs : Inputs)
    (t p : List MergedRow)
    (h : run_transformations fpow dfs = Except.ok t)
    (hp : preTable fpow dfs = Except.ok p)
    (i : ℕ) (hip : i < p.length) (hit : i < t.length) :
    ((p.get ⟨i, hip⟩).ACR = Flt.NaN →
      (t.get ⟨i, hit⟩).categoria_ACR = some "A1(por media)")
    ∧ ((p.get ⟨i, hip⟩).eGFR = Flt.NaN →
      (t.get ⟨i, hit⟩).categoria_eGFR = some "G1(por media)") := by
  obtain ⟨m, hm2, hpe⟩ := exceptMap_ok_elim hp
  rw [run_transformations, hp, exceptMapOk] at h
  have ht := Except.ok.inj h
  subst ht
  obtain ⟨q, hq⟩ := mem_pre_derived hp (p.get ⟨i, hip⟩) (List.get_mem p i hip)
  have hgt : (fillStage p).get ⟨i, hit⟩ =
      fillNumRow (mediansOf (p.map fillTextRow)) (fillTextRow (p.get ⟨i, hip⟩)) := by
    simp [fillStage, List.get_eq_getElem]
  constructor
  · intro hnan
    have hcat : (p.get ⟨i, hip⟩).categoria_ACR = none := by
      rw [← hq, deriveRow_catACR, hq, hnan]
      rfl
    rw [hgt]
    show fillT "A1(por media)" ((p.get ⟨i, hip⟩).categoria_ACR) = some "A1(por media)"
    rw [hcat]
    rfl
  · intro hnan
    have hcat : (p.get ⟨i, hip⟩).categoria_eGFR = none := by
      rw [← hq, deriveRow_catEGFR, hq, hnan]
      rfl
    rw [hgt]
    show fillT "G1(por media)" ((p.get ⟨i, hip⟩).categoria_eGFR) = some "G1(por media)"
    rw [hcat]
    rfl

/-- Witness for C10: a lone demographic row with no matches has missing
ACR and eGFR, and its final categories are the two sentinels. -/
theorem category_sentinels_witness :
    (w10out.get ⟨0, by decide⟩).categoria_ACR = some "A1(por media)"
    ∧ (w10out.get ⟨0, by decide⟩).categoria_eGFR = some "G1(por media)" :=
  ⟨(category_sentinels fpowNaN w10 w10out w10pre rfl rfl 0 (by decide) (by decide)).1
      (by decide),
   (category_sentinels fpowNaN w10 w10out w10pre rfl rfl 0 (by decide) (by decide)).2
      (by decide)⟩

lemma fillT_filled (s : String) (x : Option String) (hs : (s != "") = true) :
    textFilled (fillT s x) = true := by
  cases x with
  | none => simpa [fillT, cleanText, textFilled] using hs
  | some u =>
      by_cases h : pyStrip u = ""
      · simpa [fillT, cleanText, textFilled, h] using hs
      · simp [fillT, cleanText, textFilled, h]

lemma fillN_filled (m x : Flt) (hm : (m != Flt.NaN) = true) :
    (fillN m x != Flt.NaN) = true := by
  unfold fillN
  by_cases h : x = Flt.NaN
  · simpa [h] using hm
  · simp [h]

lemma fillId_ne (s : String) : (fillId s != "") = true := by
  unfold fillId
  by_cases h : pyStrip s = ""
  · simp [h]
  · simp [h]

/-- Claim C3 (amended): when the pipeline returns a table, every text
column of every row is filled (present and non-empty) unconditionally;
and provided every numeric column's median over the post-exclusion,
post-projection table is itself non-missing, every numeric column of
every row is filled.  (A numeric column with no observed value has a
missing median, and `fillna` then leaves its cells missing.) -/
theorem total_fill_in (fpow : Flt → Flt → Flt) (dfs : Inputs)
    (t p : List MergedRow)
    (h : run_transformations fpow dfs = Except.ok t)
    (hp : preTable fpow dfs = Except.ok p) :
    (∀ r ∈ t, rowTextFilled r = true)
    ∧ (mediansDefined (mediansOf (p.map fillTextRow)) = true →
        ∀ r ∈ t, rowNumFilled r = true) := by
  rw [run_transformations, hp, exceptMapOk] at h
  have ht := Except.ok.inj h
  subst ht
  constructor
  · intro r hrm
    simp only [fillStage] at hrm
    obtain ⟨u, hu, hur⟩ := List.mem_map.1 hrm
    obtain ⟨v, hv, hvu⟩ := List.mem_map.1 hu
    subst hur
    subst hvu
    simp only [rowTextFilled, fillNumRow, fillTextRow, Bool.and_eq_true]
    exact ⟨fillId_ne _, fillT_filled _ _ (by decide), fillT_filled _ _ (by decide),
      fillT_filled _ _ (by decide), fillT_filled _ _ (by decide),
      fillT_filled _ _ (by decide), fillT_filled _ _ (by decide),
      fillT_filled _ _ (by decide), fillT_filled _ _ (by decide),
      fillT_filled _ _ (by decide), fillT_filled _ _ (by decide),
      fillT_filled _ _ (by decide), fillT_filled _ _ (by decide),
      fillT_filled _ _ (by decide), fillT_filled _ _ (by decide),
      fillT_filled _ _ (by decide), fillT_filled _ _ (by decide),
      fillT_filled _ _ (by decide), fillT_filled _ _ (by decide)⟩
  · intro hm r hrm
    simp only [fillStage] at hrm
    obtain ⟨u, hu, hur⟩ := List.mem_map.1 hrm
    obtain ⟨v, hv, hvu⟩ := List.mem_map.1 hu
    subst hur
    subst hvu
    simp only [mediansDefined, Bool.and_eq_true] at hm
    obtain ⟨m1, m2, m3, m4, m5, m6, m7, m8, m9, m10, m11, m12, m13, m14, m15,
      m16, m17, m18, m19, m20, m21⟩ := hm
    simp only [rowNumFilled, fillNumRow, fillTextRow, Bool.and_eq_true]
    exact ⟨fillN_filled _ _ m1, fillN_filled _ _ m2, fillN_filled _ _ m3,
      fillN_filled _ _ m4, fillN_filled _ _ m5, fillN_filled _ _ m6,
      fillN_filled _ _ m7, fillN_filled _ _ m8, fillN_filled _ _ m9,
      fillN_filled _ _ m10, fillN_filled _ _ m11, fillN_filled _ _ m12,
      fillN_filled _ _ m13, fillN_filled _ _ m14, fillN_filled _ _ m15,
      fillN_filled _ _ m16, fillN_filled _ _ m17, fillN_filled _ _ m18,
      fillN_filled _ _ m19, fillN_filled _ _ m20, fillN_filled _ _ m21⟩

/-- Counterexample to C3 as stated: a lone demographic row with no
response match leaves `peso(kg)` entirely missing; its median is
missing, so the cell stays missing in the returned table. -/
theorem total_fill_in_counterexample :
    (run_transformations fpowNaN w10).toOption.map
      (fun t => t.map (fun r => r.peso_kg)) = some [Flt.NaN]
    ∧ (run_transformations fpowNaN w10).toOption.map
      (fun t => t.map rowNumFilled) = some [false] := by
  refine ⟨rfl, rfl⟩

/-- Witness for C3 (amended) at a fully populated one-row input set:
every text and numeric column of the single output row is filled,
the numeric half via an explicitly discharged medians hypothesis. -/
theorem total_fill_in_witness :
    rowTextFilled (w3out.get ⟨0, by decide⟩) = true
    ∧ rowNumFilled (w3out.get ⟨0, by decide⟩) = true :=
  ⟨(total_fill_in fpowOne w3 w3out w3pre rfl rfl).1
      (w3out.get ⟨0, by decide⟩) (List.get_mem w3out 0 (by decide)),
   (total_fill_in fpowOne w3 w3out w3pre rfl rfl).2 (by decide)
      (w3out.get ⟨0, by decide⟩) (List.get_mem w3out 0 (by decide))⟩
